import Mathlib

set_option allowUnsafeReducibility true
attribute [local semireducible] Rat.mul Rat.inv Rat.add Rat.sub Rat.ofScientific

/-!
Shallow embedding of the core pipeline of the pharmacy opportunity
calculator:

* `src/js/calculations.js` — `generatePayload` (opportunity payload generator);
* `src/unnamed/part_000...` (`generate-plan.js` variant, `part_006`) and
  `src/netlify/functions/generate-plan-background.js` — `parseAIResponse`
  (generative-response recovery pipeline) and `generateFallbackPlan`;
* `src/js/aiIntegration.js` — `validateAndCorrectPlan` (plan/payload
  reconciliation validator).

JavaScript numbers are modelled as exact rationals (`ℚ`); `Math.round` and
`Number.prototype.toFixed` are modelled with their exact rounding rules
(round half toward +∞ resp. nearest with ties away from zero toward the
larger value).  The numeric `Infinity` produced by the source is modelled
explicitly by the two-constructor type `JNum`.  Thrown JavaScript
exceptions are modelled as `Except.error`; a normal return is `Except.ok`.
Non-deterministic fields of the payload (`generatedAt` timestamp and the
checksum derived from it) are omitted, as no claim depends on them.
-/

namespace PharmacyCalc

/-- JavaScript `Math.round`: round to nearest integer, ties toward +∞. -/
def jsRound (q : ℚ) : ℤ := ⌊q + 1/2⌋

/-- Numeric value of JavaScript `Number(x.toFixed(1))`: one decimal digit,
nearest value, ties toward the larger candidate (ECMA-262 `toFixed`). -/
def toFixed1 (q : ℚ) : ℚ := (⌊q * 10 + 1/2⌋ : ℚ) / 10

/-- A JavaScript number that may be the value `Infinity`. -/
inductive JNum where
  | fin (q : ℚ)
  | inf
deriving DecidableEq, Repr

/-- JavaScript `a || b` for an optionally-present numeric field `a`
(`undefined` and `0` are falsy, every other number is truthy). -/
def jsOrQ (o : Option ℚ) (d : ℚ) : ℚ :=
  match o with
  | none => d
  | some q => if q = 0 then d else q

/-- JavaScript `a || b` for an optionally-present string field
(`undefined` and `""` are falsy). -/
def jsOrStr (o : Option String) (d : String) : String :=
  match o with
  | none => d
  | some s => if s = "" then d else s

/-- Decimal rendering of an integer (used inside template strings). -/
def intStr (n : ℤ) : String := toString n

/-- Decimal rendering of a rational inside a JS template string.  Exact for
integral values (the only values the claims touch); non-integral rationals
are rendered as `num/den`, approximating the JS decimal expansion. -/
def qStr (q : ℚ) : String :=
  if q.den = 1 then intStr q.num else intStr q.num ++ "/" ++ toString q.den

/-- A natural number rendered in decimal, left-padded with zeros to
`width` digits. -/
def natPad (n : ℕ) (width : ℕ) : String :=
  let s := toString n
  String.mk (List.replicate (width - s.length) '0') ++ s

/-- String produced by JS `x.toFixed(d)`: `d` decimal digits, nearest
value, ties toward the larger candidate (ECMA-262 `toFixed`). -/
def fixedStr (d : ℕ) (q : ℚ) : String :=
  let n : ℤ := ⌊q * (10 : ℚ) ^ d + 1/2⌋
  let render := fun (m : ℕ) =>
    toString (m / 10 ^ d) ++ "." ++ natPad (m % 10 ^ d) d
  if n < 0 then "-" ++ render (-n).toNat else render n.toNat

/-- Decimal rendering of a rational whose denominator divides a power of
ten (every value the validator formats is of this shape, arising from
`toFixed` strings or parsed decimal literals); other rationals fall back
to `qStr`, approximating the JS binary-float decimal expansion. -/
def decStr (q : ℚ) : String :=
  if q.den = 1 then intStr q.num
  else
    match (List.range 31).find? (fun k => (10 : ℕ) ^ k % q.den = 0) with
    | some k =>
      let scaled : ℤ := q.num * (10 : ℤ) ^ k / (q.den : ℤ)
      let render := fun (m : ℕ) =>
        toString (m / 10 ^ k) ++ "." ++ natPad (m % 10 ^ k) k
      if scaled < 0 then "-" ++ render (-scaled).toNat else render scaled.toNat
    | none => qStr q

/-- Digit grouping of `Number.prototype.toLocaleString` (comma thousands
separators, as in the `en-AU` locale of the source's currency): exact for
integers, falling back to `decStr` otherwise. -/
def insGroupSep : List Char → ℕ → List Char
  | [], _ => []
  | c :: rest, i =>
    if i % 3 = 0 ∧ i ≠ 0 then ',' :: c :: insGroupSep rest (i + 1)
    else c :: insGroupSep rest (i + 1)

/-- Digit-grouped rendering of a natural number. -/
def groupNat (n : ℕ) : String :=
  String.mk ((insGroupSep (toString n).data.reverse 0).reverse)

/-- Digit grouping of `Number.prototype.toLocaleString` (comma thousands
separators, as in the `en-AU` locale of the source's currency): exact for
integers, falling back to `decStr` otherwise. -/
def localeStr (q : ℚ) : String :=
  if q.den = 1 then
    if q.num < 0 then "-" ++ groupNat (-q.num).toNat else groupNat q.num.toNat
  else decStr q

/-! ## Opportunity payload generator (`src/js/calculations.js`, `generatePayload`)

The source collects `rawData` either from the DOM or from the
`rawDataOverride` parameter; only the data path (`rawDataOverride`) is
modelled, the DOM reader being browser glue outside the core. -/

/-- One raw service analysis record (the `ServiceOpportunity` input unit). -/
structure ServiceRecord where
  id : String
  name : String
  currentValue : ℚ
  potentialValue : ℚ
  additionalValue : ℚ
  growthPercentage : ℚ
deriving DecidableEq, Repr

/-- User preferences object passed to `generatePayload`; fields may be
absent (`undefined`). -/
structure UserPreferences where
  maxInvestment : Option ℚ := none
  timeHorizonMonths : Option ℚ := none
  preferredDepth : Option String := none
deriving DecidableEq, Repr

/-- A record of `processedData`: the raw record enriched with monthly and
annual revenue impact (`calculations.js` lines 254-273). -/
structure ProcessedService where
  id : String
  name : String
  currentValue : ℚ
  potentialValue : ℚ
  monthlyRevenueImpact : ℚ
  annualRevenueImpact : ℤ
  growthPercentage : ℚ
  assumptions : String
deriving DecidableEq, Repr

/-- Mapping one raw record to its processed form:
`monthlyDelta = additionalValue / 12`,
`annualRevenueImpact = Math.round(monthlyDelta * 12)`. -/
def processService (s : ServiceRecord) : ProcessedService :=
  { id := s.id
    name := s.name
    currentValue := s.currentValue
    potentialValue := s.potentialValue
    monthlyRevenueImpact := s.additionalValue / 12
    annualRevenueImpact := jsRound (s.additionalValue / 12 * 12)
    growthPercentage := s.growthPercentage
    assumptions := "Based on standard pharmacy implementation for " ++ s.name }

/-- The `processedData` array. -/
def processedData (rawData : List ServiceRecord) : List ProcessedService :=
  rawData.map processService

/-- Totals accumulated while mapping (`totalCurrentMonthly`). -/
def totalCurrentMonthly (rawData : List ServiceRecord) : ℚ :=
  (rawData.map (fun s => s.currentValue / 12)).sum

/-- Totals accumulated while mapping (`totalProjectedMonthly`). -/
def totalProjectedMonthly (rawData : List ServiceRecord) : ℚ :=
  (rawData.map (fun s => s.potentialValue / 12)).sum

/-- Totals accumulated while mapping (`totalMonthlyDelta`). -/
def totalMonthlyDelta (rawData : List ServiceRecord) : ℚ :=
  (rawData.map (fun s => s.additionalValue / 12)).sum

/-- Ordering realised by the stable JS sort
`[...processedData].sort((a, b) => b.monthlyRevenueImpact - a.monthlyRevenueImpact)`:
descending revenue impact, ties kept in input order.  The sort is applied
to the index-tagged list so that stability is captured by the tiebreak on
the original index. -/
def rankLE (a b : ℕ × ProcessedService) : Bool :=
  decide (b.2.monthlyRevenueImpact < a.2.monthlyRevenueImpact) ||
    (decide (a.2.monthlyRevenueImpact = b.2.monthlyRevenueImpact) && decide (a.1 ≤ b.1))

/-- The ranked array together with each element's original position.  The
ES2019+ `Array.prototype.sort` is stable, so its output is the unique
permutation sorted by the total order `rankLE` (impact descending, input
position ascending); `insertionSort` over that total order realises
exactly this permutation (and keeps the definition kernel-computable). -/
def rankedPairs (rawData : List ServiceRecord) : List (ℕ × ProcessedService) :=
  List.insertionSort (fun a b => rankLE a b = true) ((processedData rawData).enum)

/-- The `rankedByImpact` array (descending by `monthlyRevenueImpact`,
stable). -/
def rankedByImpact (rawData : List ServiceRecord) : List ProcessedService :=
  (rankedPairs rawData).map (·.2)

/-- The ids of the top 6 ranked records (`rankedByImpact.slice(0, 6).map(d => d.id)`). -/
def top6Ids (rawData : List ServiceRecord) : List String :=
  ((rankedByImpact rawData).take 6).map (·.id)

/-- The `included` flag assigned to an item:
`item.included = top6Ids.includes(item.id)`. -/
def includedFlag (rawData : List ServiceRecord) (p : ProcessedService) : Bool :=
  (top6Ids rawData).contains p.id

/-- The `included` flags of `processedData` in input order. -/
def includedFlags (rawData : List ServiceRecord) : List Bool :=
  (processedData rawData).map (includedFlag rawData)

/-- The `topDrivers` slice: `rankedByImpact.slice(0, Math.min(8, rankedByImpact.length))`. -/
def topDriversRanked (rawData : List ServiceRecord) : List ProcessedService :=
  (rankedByImpact rawData).take (min 8 (rankedByImpact rawData).length)

/-- The count of items outside `topDrivers` (`otherItemsCount`). -/
def otherItemsCount (rawData : List ServiceRecord) : ℕ :=
  (processedData rawData).length - (topDriversRanked rawData).length

/-- The unrounded combined impact of items outside `topDrivers`
(`otherMonthlyImpact`). -/
def otherMonthlyImpact (rawData : List ServiceRecord) : ℚ :=
  totalMonthlyDelta rawData -
    ((topDriversRanked rawData).map (·.monthlyRevenueImpact)).sum

/-- Monthly delta of the included drivers only (`includedMonthlyDelta`):
sum over `topDrivers.filter(d => d.included)`. -/
def includedMonthlyDelta (rawData : List ServiceRecord) : ℚ :=
  (((topDriversRanked rawData).filter (includedFlag rawData)).map
    (·.monthlyRevenueImpact)).sum

/-- One entry of the payload's `topDrivers` array. -/
structure TopDriver where
  id : String
  name : String
  currentValue : ℚ
  targetValue : ℚ
  unit : String
  monthlyRevenueImpact : ℤ
  annualRevenueImpact : ℤ
  included : Bool
  assumptions : String
deriving DecidableEq, Repr

/-- Building one payload `topDrivers` entry from a ranked record. -/
def mkTopDriver (rawData : List ServiceRecord) (d : ProcessedService) : TopDriver :=
  { id := d.id
    name := d.name
    currentValue := d.currentValue
    targetValue := d.potentialValue
    unit := "patients/month"
    monthlyRevenueImpact := jsRound d.monthlyRevenueImpact
    annualRevenueImpact := jsRound (d.annualRevenueImpact : ℚ)
    included := includedFlag rawData d
    assumptions := d.assumptions }

/-- The payload's `metadata` object (the non-deterministic `generatedAt`
timestamp and the checksum computed from it are omitted). -/
structure Metadata where
  calculatorVersion : String
  currency : String
  timeUnit : String
  data_provenance : String
  financial_mode : String
deriving DecidableEq, Repr

/-- The payload's `summaryMetrics` object. -/
structure SummaryMetrics where
  scope : String
  currentMonthlyRevenue : ℤ
  projectedMonthlyRevenue : ℤ
  monthlyRevenueDelta : ℤ
  estimatedAnnualDelta : ℤ
  itemCount : ℕ
  totalInvestment : ℚ
  computedFrom : List String
deriving DecidableEq, Repr

/-- The payload's `overallFinancials` object.  `roi` is `null` (`none`)
in the insufficient-data state; `paybackMonths` is a JS number that the
source sets to `Infinity` outside the happy path. -/
structure OverallFinancials where
  roi : Option ℚ
  paybackMonths : JNum
  roiArithmetic : String
  paybackArithmetic : String
  monthlyRevenueLift : ℤ
  annualRevenueLift : ℤ
  totalInvestment : ℚ
  warnings : List String
deriving DecidableEq, Repr

/-- The payload's `otherItemsSummary` object. -/
structure OtherItemsSummary where
  count : ℕ
  combinedMonthlyImpact : ℤ
  combinedOneTimeCost : Option ℚ
  combinedRecurringAnnualCost : Option ℚ
  totalInvestment : ℚ
  note : String
deriving DecidableEq, Repr

/-- The payload's `userInputs` object. -/
structure UserInputs where
  totalInvestment : ℚ
  totalInvestmentPurpose : String
deriving DecidableEq, Repr

/-- The payload's echoed `userPreferences` object (with defaults applied). -/
structure UserPreferencesOut where
  maxInvestment : ℚ
  timeHorizonMonths : ℚ
  preferredDepth : String
deriving DecidableEq, Repr

/-- One entry of `financial_breakdown.details`. -/
structure BreakdownDetail where
  id : String
  name : String
  monthly_revenue_lift : ℤ
  annual_revenue_lift : ℤ
deriving DecidableEq, Repr

/-- The payload's `financial_breakdown` object. -/
structure FinancialBreakdown where
  one_time_total : ℚ
  monthly_revenue_lift_total : ℤ
  annual_revenue_lift_total : ℤ
  payback : String
  details : List BreakdownDetail
  overall_roi : String
  missing_data_warnings : List String
deriving DecidableEq, Repr

/-- The opportunity payload returned by `generatePayload`. -/
structure Payload where
  metadata : Metadata
  summaryMetrics : SummaryMetrics
  topDrivers : List TopDriver
  overallFinancials : OverallFinancials
  otherItemsSummary : OtherItemsSummary
  userInputs : UserInputs
  userPreferences : UserPreferencesOut
  financial_breakdown : FinancialBreakdown
deriving DecidableEq, Repr

/-- The `investment` figure used by `overallFinancials`
(`userPreferences.maxInvestment || 0`). -/
def investmentOf (prefs : UserPreferences) : ℚ := jsOrQ prefs.maxInvestment 0

/-- The raw (pre-`toFixed`) `paybackMonths` value: `investment / monthlyLift`
when both are positive, JS `Infinity` otherwise. -/
def paybackRaw (prefs : UserPreferences) (rawData : List ServiceRecord) : JNum :=
  if 0 < investmentOf prefs ∧ 0 < includedMonthlyDelta rawData then
    JNum.fin (investmentOf prefs / includedMonthlyDelta rawData)
  else JNum.inf

/-- The `overallFinancials` IIFE of `generatePayload`
(`calculations.js` lines 361-425). -/
def overallFinancials (prefs : UserPreferences) (rawData : List ServiceRecord) :
    OverallFinancials :=
  let investment := investmentOf prefs
  let monthlyLift := includedMonthlyDelta rawData
  let annualLift := jsRound (monthlyLift * 12)
  let roiNumeric : Option ℚ :=
    if 0 < investment ∧ 0 < monthlyLift then some ((annualLift : ℚ) / investment * 100)
    else if 0 < investment ∧ monthlyLift = 0 then some 0
    else none
  let roiString :=
    if 0 < investment ∧ 0 < monthlyLift then
      intStr annualLift ++ " / " ++ qStr investment ++ " * 100 = " ++
        fixedStr 1 ((annualLift : ℚ) / investment * 100) ++ "%"
    else if investment = 0 then "Insufficient data: totalInvestment = 0"
    else intStr annualLift ++ " / " ++ qStr investment ++ " * 100 = 0%"
  let payback0 := paybackRaw prefs rawData
  let paybackString :=
    if 0 < investment ∧ 0 < monthlyLift then
      qStr investment ++ " / " ++ qStr monthlyLift ++ " = " ++
        fixedStr 1 (investment / monthlyLift) ++ " months"
    else if investment = 0 then "Insufficient data: totalInvestment = 0"
    else "Infinite (monthly lift = 0)"
  let warnings :=
    (match roiNumeric with
     | some r => if r < 0 then ["Negative ROI: revenue deltas do not cover investment"] else []
     | none => []) ++
    (match payback0 with
     | JNum.inf =>
         ["Payback period undefined: monthly revenue lift is 0 or totalInvestment is 0"]
     | JNum.fin p => if 24 < p then ["Payback period exceeds 24 months"] else [])
  { roi := roiNumeric.map toFixed1
    paybackMonths :=
      match payback0 with
      | JNum.inf => JNum.inf
      | JNum.fin p => JNum.fin (toFixed1 p)
    roiArithmetic := roiString
    paybackArithmetic := paybackString
    monthlyRevenueLift := jsRound monthlyLift
    annualRevenueLift := annualLift
    totalInvestment := investment
    warnings := warnings }

/-- The `summaryMetrics` object built by `generatePayload`. -/
def summaryMetricsOf (prefs : UserPreferences) (rawData : List ServiceRecord) :
    SummaryMetrics :=
  { scope := "selected_initiatives"
    currentMonthlyRevenue := jsRound (totalCurrentMonthly rawData)
    projectedMonthlyRevenue := jsRound (totalProjectedMonthly rawData)
    monthlyRevenueDelta := jsRound (includedMonthlyDelta rawData)
    estimatedAnnualDelta := jsRound (includedMonthlyDelta rawData * 12)
    itemCount := (processedData rawData).length
    totalInvestment := jsOrQ prefs.maxInvestment 0
    computedFrom :=
      (((topDriversRanked rawData).filter (includedFlag rawData)).map (·.id)) }

/-- The payload `topDrivers` array. -/
def topDriversOf (rawData : List ServiceRecord) : List TopDriver :=
  (topDriversRanked rawData).map (mkTopDriver rawData)

/-- The structured payload generator `generatePayload` of
`src/js/calculations.js` (lines 239-535), modelled on the
`rawDataOverride` code path.  Returns `none` (JS `null`) when the raw
record list is empty. -/
def generatePayload (prefs : UserPreferences) (rawData : List ServiceRecord) :
    Option Payload :=
  if rawData.isEmpty then none
  else
    let sm := summaryMetricsOf prefs rawData
    some
      { metadata :=
          { calculatorVersion := "1.3.0"
            currency := "AUD"
            timeUnit := "month"
            data_provenance :=
              "Derived directly from servicesData in original_calc.html (no cost fields)"
            financial_mode := "revenue_only" }
        summaryMetrics := sm
        topDrivers := topDriversOf rawData
        overallFinancials := overallFinancials prefs rawData
        otherItemsSummary :=
          { count := otherItemsCount rawData
            combinedMonthlyImpact := jsRound (otherMonthlyImpact rawData)
            combinedOneTimeCost := none
            combinedRecurringAnnualCost := none
            totalInvestment := jsOrQ prefs.maxInvestment 0
            note := "No per-service costs; use total user-entered investment for ROI/payback. See downloadable CSV for full list" }
        userInputs :=
          { totalInvestment := jsOrQ prefs.maxInvestment 0
            totalInvestmentPurpose := "used_for_overall_roi_and_payback_only" }
        userPreferences :=
          { maxInvestment := jsOrQ prefs.maxInvestment 150000
            timeHorizonMonths := jsOrQ prefs.timeHorizonMonths 12
            preferredDepth := jsOrStr prefs.preferredDepth "detailed" }
        financial_breakdown :=
          { one_time_total := sm.totalInvestment
            monthly_revenue_lift_total := sm.monthlyRevenueDelta
            annual_revenue_lift_total := sm.estimatedAnnualDelta
            payback := qStr sm.totalInvestment ++ " / " ++
              intStr sm.monthlyRevenueDelta ++ " months"
            details := (topDriversOf rawData).map (fun d =>
              { id := d.id
                name := d.name
                monthly_revenue_lift := d.monthlyRevenueImpact
                annual_revenue_lift := d.annualRevenueImpact })
            overall_roi := "(" ++ intStr sm.estimatedAnnualDelta ++ " - 0) / " ++
              qStr sm.totalInvestment ++ " * 100"
            missing_data_warnings :=
              ["No per-service costs; using total user investment for overall ROI/payback calculations."] } }

/-! ## Dynamic JavaScript values and `JSON.parse`

`JSVal` models the dynamic values flowing through the recovery pipeline
and the validator: parsed JSON documents, the fallback plans, and the
arguments of `validateAndCorrectPlan`.  `undef` models JavaScript
`undefined` (a value the JSON parser itself never produces). -/

inductive JSVal where
  | undef
  | null
  | bool (b : Bool)
  | num (q : ℚ)
  | str (s : String)
  | arr (elems : List JSVal)
  | obj (members : List (String × JSVal))
deriving Repr

/-- Last-occurrence-wins association lookup: `JSON.parse` lets a repeated
key overwrite the earlier one, so the later member is found first. -/
def jLookup (members : List (String × JSVal)) (k : String) : Option JSVal :=
  match members with
  | [] => none
  | (k', v) :: rest =>
    match jLookup rest k with
    | some r => some r
    | none => if k' = k then some v else none

/-- Property read `o[k]` on an object; `none` models `undefined` via an
absent key or a non-object base (other than `null`/`undefined`, whose
property reads throw and are handled at each use site). -/
def JSVal.getField (j : JSVal) (k : String) : Option JSVal :=
  match j with
  | .obj m => jLookup m k
  | _ => none

/-- JavaScript truthiness of a possibly-absent value (`undefined`, `null`,
`false`, `0` and `""` are falsy). -/
def jsTruthy (v : Option JSVal) : Bool :=
  match v with
  | none => false
  | some .undef => false
  | some .null => false
  | some (.bool b) => b
  | some (.num q) => q != 0
  | some (.str s) => s != ""
  | some (.arr _) => true
  | some (.obj _) => true

/-! ### A model of `JSON.parse`

A strict recursive-descent parser for the JSON grammar (objects, arrays,
strings with escapes, numbers, `true`/`false`/`null`), consuming optional
whitespace and requiring the whole input to be consumed.  Recursion is by
an explicit fuel bounded by the input length.  Error messages are short
descriptions standing in for the engine's `SyntaxError` messages; every
claim treats the parse-error text as opaque. -/

/-- JSON insignificant whitespace. -/
def isJsonWs (c : Char) : Bool :=
  c = ' ' || c = '\t' || c = '\n' || c = '\r'

/-- Hexadecimal digit value, if any. -/
def hexVal (c : Char) : Option ℕ :=
  if '0' ≤ c ∧ c ≤ '9' then some (c.toNat - '0'.toNat)
  else if 'a' ≤ c ∧ c ≤ 'f' then some (c.toNat - 'a'.toNat + 10)
  else if 'A' ≤ c ∧ c ≤ 'F' then some (c.toNat - 'A'.toNat + 10)
  else none

/-- Decimal digit test. -/
def isDigitCh (c : Char) : Bool := '0' ≤ c && c ≤ '9'

/-- Scan the body of a JSON string after the opening quote, handling the
escape sequences of the JSON grammar. -/
def scanJsonStr : ℕ → List Char → Except String (List Char × List Char)
  | 0, _ => .error "Unexpected end of JSON input"
  | _ + 1, [] => .error "Unterminated string in JSON"
  | fuel + 1, c :: rest =>
    if c = '"' then .ok ([], rest)
    else if c = '\\' then
      match rest with
      | [] => .error "Unterminated string in JSON"
      | e :: rest' =>
        let cont := fun (ch : Char) (rem : List Char) =>
          match scanJsonStr fuel rem with
          | .ok (cs, rem') => .ok (ch :: cs, rem')
          | .error m => .error m
        if e = '"' then cont '"' rest'
        else if e = '\\' then cont '\\' rest'
        else if e = '/' then cont '/' rest'
        else if e = 'b' then cont '\x08' rest'
        else if e = 'f' then cont '\x0c' rest'
        else if e = 'n' then cont '\n' rest'
        else if e = 'r' then cont '\r' rest'
        else if e = 't' then cont '\t' rest'
        else if e = 'u' then
          match rest' with
          | h1 :: h2 :: h3 :: h4 :: rest'' =>
            match hexVal h1, hexVal h2, hexVal h3, hexVal h4 with
            | some a, some b, some cdig, some d =>
              cont (Char.ofNat (((a * 16 + b) * 16 + cdig) * 16 + d)) rest''
            | _, _, _, _ => .error "Bad Unicode escape in JSON"
          | _ => .error "Bad Unicode escape in JSON"
        else .error "Bad escaped character in JSON"
    else if c.toNat < 0x20 then .error "Bad control character in JSON string"
    else
      match scanJsonStr fuel rest with
      | .ok (cs, rem') => .ok (c :: cs, rem')
      | .error m => .error m

/-- Scan a JSON number (sign, integer part, optional fraction and
exponent) into an exact rational. -/
def scanJsonNum (cs : List Char) : Except String (ℚ × List Char) :=
  let (sgn, cs1) :=
    match cs with
    | '-' :: rest => ((-1 : ℚ), rest)
    | _ => ((1 : ℚ), cs)
  let intDigits := cs1.takeWhile isDigitCh
  let cs2 := cs1.drop intDigits.length
  if intDigits.isEmpty then .error "Unexpected token in JSON (bad number)"
  else if intDigits.head? = some '0' ∧ 1 < intDigits.length then
    .error "Unexpected number in JSON (leading zero)"
  else
    let intVal : ℕ := intDigits.foldl (fun acc c => acc * 10 + (c.toNat - '0'.toNat)) 0
    let frac : ℕ × ℕ × List Char :=
      match cs2 with
      | '.' :: rest =>
        let fd := rest.takeWhile isDigitCh
        (fd.foldl (fun acc c => acc * 10 + (c.toNat - '0'.toNat)) 0, fd.length,
          rest.drop fd.length)
      | _ => (0, 0, cs2)
    let fracVal := frac.1
    let fracLen := frac.2.1
    let cs3 := frac.2.2
    if cs2 ≠ cs3 ∧ fracLen = 0 then .error "Unexpected token in JSON (bad fraction)"
    else
      let expPart : Bool × ℤ × ℕ × List Char :=
        match cs3 with
        | 'e' :: rest | 'E' :: rest =>
          let sgnRest : ℤ × List Char :=
            match rest with
            | '+' :: r => ((1 : ℤ), r)
            | '-' :: r => ((-1 : ℤ), r)
            | _ => ((1 : ℤ), rest)
          let ed := sgnRest.2.takeWhile isDigitCh
          (!ed.isEmpty, sgnRest.1,
            ed.foldl (fun acc c => acc * 10 + (c.toNat - '0'.toNat)) 0,
            sgnRest.2.drop ed.length)
        | _ => (true, 1, 0, cs3)
      let expOk := expPart.1
      let expSign := expPart.2.1
      let expVal := expPart.2.2.1
      let cs4 := expPart.2.2.2
      if ¬ expOk then .error "Unexpected token in JSON (bad exponent)"
      else
        let base : ℚ := (intVal : ℚ) + (fracVal : ℚ) / ((10 : ℚ) ^ fracLen)
        let scaled : ℚ :=
          if expSign ≥ 0 then base * (10 : ℚ) ^ expVal
          else base / ((10 : ℚ) ^ expVal)
        .ok (sgn * scaled, cs4)

mutual

/-- Parse one JSON value after skipping leading whitespace. -/
def parseJsonVal : ℕ → List Char → Except String (JSVal × List Char)
  | 0, _ => .error "Unexpected end of JSON input"
  | fuel + 1, cs =>
    let cs := cs.dropWhile isJsonWs
    match cs with
    | [] => .error "Unexpected end of JSON input"
    | c :: rest =>
      if c = '{' then
        parseJsonMembers fuel rest true
      else if c = '[' then
        parseJsonItems fuel rest true
      else if c = '"' then
        match scanJsonStr fuel rest with
        | .ok (body, rem) => .ok (.str (String.mk body), rem)
        | .error m => .error m
      else if c = 't' then
        match rest with
        | 'r' :: 'u' :: 'e' :: rem => .ok (.bool true, rem)
        | _ => .error "Unexpected token in JSON"
      else if c = 'f' then
        match rest with
        | 'a' :: 'l' :: 's' :: 'e' :: rem => .ok (.bool false, rem)
        | _ => .error "Unexpected token in JSON"
      else if c = 'n' then
        match rest with
        | 'u' :: 'l' :: 'l' :: rem => .ok (.null, rem)
        | _ => .error "Unexpected token in JSON"
      else if c = '-' || isDigitCh c then
        match scanJsonNum (c :: rest) with
        | .ok (q, rem) => .ok (.num q, rem)
        | .error m => .error m
      else .error "Unexpected token in JSON"

/-- Parse the members of an object after the opening brace; `first` is
true until a member has been consumed. -/
def parseJsonMembers : ℕ → List Char → Bool → Except String (JSVal × List Char)
  | 0, _, _ => .error "Unexpected end of JSON input"
  | fuel + 1, cs, first =>
    let cs := cs.dropWhile isJsonWs
    match cs with
    | [] => .error "Unexpected end of JSON input"
    | c :: rest =>
      if c = '}' ∧ first then .ok (.obj [], rest)
      else
        let afterSep : Except String (List Char) :=
          if first then .ok (c :: rest)
          else if c = ',' then .ok rest
          else if c = '}' then .ok (c :: rest)
          else .error "Expected comma or closing brace in JSON object"
        match afterSep with
        | .error m => .error m
        | .ok cs2 =>
          if ¬ first ∧ (cs2.dropWhile isJsonWs).head? = some '}' ∧ c = '}' then
            .ok (.obj [], rest)
          else
            let cs3 := cs2.dropWhile isJsonWs
            match cs3 with
            | '"' :: kRest =>
              match scanJsonStr fuel kRest with
              | .error m => .error m
              | .ok (kBody, afterKey) =>
                let afterKeyWs := afterKey.dropWhile isJsonWs
                match afterKeyWs with
                | ':' :: vRest =>
                  match parseJsonVal fuel vRest with
                  | .error m => .error m
                  | .ok (v, afterVal) =>
                    match parseJsonMembers fuel afterVal false with
                    | .error m => .error m
                    | .ok (.obj ms, rem) =>
                      .ok (.obj ((String.mk kBody, v) :: ms), rem)
                    | .ok _ => .error "Expected object tail in JSON"
                | _ => .error "Expected colon in JSON object"
            | _ => .error "Expected property name in JSON object"

/-- Parse the items of an array after the opening bracket. -/
def parseJsonItems : ℕ → List Char → Bool → Except String (JSVal × List Char)
  | 0, _, _ => .error "Unexpected end of JSON input"
  | fuel + 1, cs, first =>
    let cs := cs.dropWhile isJsonWs
    match cs with
    | [] => .error "Unexpected end of JSON input"
    | c :: rest =>
      if c = ']' ∧ first then .ok (.arr [], rest)
      else if c = ']' ∧ ¬ first then .ok (.arr [], rest)
      else
        let afterSep : Except String (List Char) :=
          if first then .ok (c :: rest)
          else if c = ',' then .ok rest
          else .error "Expected comma or closing bracket in JSON array"
        match afterSep with
        | .error m => .error m
        | .ok cs2 =>
          match parseJsonVal fuel cs2 with
          | .error m => .error m
          | .ok (v, afterVal) =>
            match parseJsonItems fuel afterVal false with
            | .error m => .error m
            | .ok (.arr vs, rem) => .ok (.arr (v :: vs), rem)
            | .ok _ => .error "Expected array tail in JSON"

end

/-- The model of `JSON.parse` on a character list: parse one value and
require only whitespace to remain. -/
def jsonParse (cs : List Char) : Except String JSVal :=
  match parseJsonVal (cs.length + 1) cs with
  | .error m => .error m
  | .ok (v, rem) =>
    if (rem.dropWhile isJsonWs).isEmpty then .ok v
    else .error "Unexpected non-whitespace character after JSON"

/-! ## Text cleaning and repair scanners

Character-level models of the specific regex replacements used by the two
`parseAIResponse` variants.  Each global `String.replace` is modelled by a
left-to-right scanner that, at every position, either consumes a whole
match (emitting its replacement and resuming after the match, as the JS
regex engine does for `/g` patterns) or emits one character and advances.
Recursions that consume a variable number of characters use an explicit
fuel bounded by the input length. -/

/-- The single-quote character (written via its code point). -/
def sqChar : Char := Char.ofNat 39

/-- JavaScript regex `\s` class (the members relevant to this code base). -/
def isJsWs (c : Char) : Bool :=
  c = ' ' || c = '\t' || c = '\n' || c = '\r' || c = '\x0b' || c = '\x0c' || c = '\xa0'

/-- Case-insensitive prefix test (`/i` flag). -/
def startsWithCI : List Char → List Char → Bool
  | [], _ => true
  | _ :: _, [] => false
  | p :: ps, c :: cs => p.toLower = c.toLower && startsWithCI ps cs

/-- One pass of `text.replace(/\x60\x60\x60TAG\s*/gi, "")`.  With
`required = false` the tag is optional in the pattern
(`(?:mermaid)?`); a tag of `[]` removes every bare fence. -/
def stripFencePass (tag : List Char) (required : Bool) : ℕ → List Char → List Char
  | 0, cs => cs
  | _ + 1, [] => []
  | fuel + 1, c :: rest =>
    if c = '\x60' then
      match rest with
      | t2 :: t3 :: afterTicks =>
        if t2 = '\x60' ∧ t3 = '\x60' then
          if startsWithCI tag afterTicks then
            stripFencePass tag required fuel
              ((afterTicks.drop tag.length).dropWhile isJsWs)
          else if required then c :: stripFencePass tag required fuel rest
          else stripFencePass tag required fuel (afterTicks.dropWhile isJsWs)
        else c :: stripFencePass tag required fuel rest
      | _ => c :: stripFencePass tag required fuel rest
    else c :: stripFencePass tag required fuel rest

/-- JavaScript `String.prototype.trim`. -/
def jsTrim (cs : List Char) : List Char :=
  ((cs.dropWhile isJsWs).reverse.dropWhile isJsWs).reverse

/-- The candidate-region extraction `cleaned.match(/\{[\s\S]*\}/)`: the
substring from the first opening brace to the last closing brace, when the
latter comes after the former. -/
def extractBraceRegion (cs : List Char) : Option (List Char) :=
  match cs.findIdx? (fun c => c = '{') with
  | none => none
  | some i =>
    match cs.reverse.findIdx? (fun c => c = '}') with
    | none => none
    | some rj =>
      let j := cs.length - 1 - rj
      if i < j then some ((cs.drop i).take (j - i + 1)) else none

/-- The four counters returned by `countBracesAndBrackets`. -/
structure BraceCounts where
  openCurly : ℕ
  closeCurly : ℕ
  openSquare : ℕ
  closeSquare : ℕ
deriving DecidableEq, Repr

/-- Helper `countBracesAndBrackets` of `part_006` (lines 717-733). -/
def countBracesAndBrackets (cs : List Char) : BraceCounts :=
  { openCurly := cs.count '{'
    closeCurly := cs.count '}'
    openSquare := cs.count '['
    closeSquare := cs.count ']' }

/-- Loop body of `trimTrailingChars`, working on the reversed text. -/
def trimTrailingAux : ℕ → Char → List Char → List Char
  | 0, _, cs => cs
  | n + 1, ch, cs =>
    match cs with
    | [] => []
    | c :: rest => if c = ch then trimTrailingAux n ch rest else c :: rest

/-- Helper `trimTrailingChars` of `part_006` (lines 736-744): remove up to
`maxTrim` copies of `ch` from the end of the text. -/
def trimTrailingChars (cs : List Char) (ch : Char) (maxTrim : ℕ) : List Char :=
  (trimTrailingAux maxTrim ch cs.reverse).reverse

/-- The auto-balancing structural repair of `part_006` (lines 553-588):
append the missing closing braces/brackets, or trim surplus ones from the
tail, based on one count of the cleaned text. -/
def structuralRepair (cs : List Char) : List Char :=
  let b := countBracesAndBrackets cs
  let r1 :=
    if b.closeCurly < b.openCurly then
      cs ++ List.replicate (b.openCurly - b.closeCurly) '}'
    else if b.openCurly < b.closeCurly then
      trimTrailingChars cs '}' (b.closeCurly - b.openCurly)
    else cs
  if b.closeSquare < b.openSquare then
    r1 ++ List.replicate (b.openSquare - b.closeSquare) ']'
  else if b.openSquare < b.closeSquare then
    trimTrailingChars r1 ']' (b.closeSquare - b.openSquare)
  else r1

/-- Whether the structural repair changed anything (the `autoRepaired`
flag of the source). -/
def autoRepaired (cs : List Char) : Bool :=
  let b := countBracesAndBrackets cs
  b.openCurly ≠ b.closeCurly || b.openSquare ≠ b.closeSquare

/-- The repair `repaired.replace(/,\s*([}\]])/g, "$1")`: drop a comma
(and the whitespace after it) immediately before a closer. -/
def dropTrailingCommas : ℕ → List Char → List Char
  | 0, cs => cs
  | _ + 1, [] => []
  | fuel + 1, c :: rest =>
    if c = ',' then
      let ws := rest.takeWhile isJsWs
      match rest.drop ws.length with
      | b :: tail =>
        if b = '}' ∨ b = ']' then b :: dropTrailingCommas fuel tail
        else c :: dropTrailingCommas fuel rest
      | [] => c :: dropTrailingCommas fuel rest
    else c :: dropTrailingCommas fuel rest

/-- The `part_006`-only repair `repaired.replace(/"\s+"/g, cb)` inserting a
missing comma between two string literals; the callback inspects the char
before the match and the char after it in the original text. -/
def fixMissingCommas : ℕ → Option Char → List Char → List Char
  | 0, _, cs => cs
  | _ + 1, _, [] => []
  | fuel + 1, prev, c :: rest =>
    if c = '"' then
      let ws := rest.takeWhile isJsWs
      if ws.isEmpty then c :: fixMissingCommas fuel (some c) rest
      else
        match rest.drop ws.length with
        | q :: tail =>
          if q = '"' then
            let keep : Bool :=
              (prev = some ',') ||
                (match tail.head? with
                 | none => true
                 | some a => a = ',' || a = ':')
            if keep then (c :: ws ++ ['"']) ++ fixMissingCommas fuel (some '"') tail
            else ['"', ',', ' ', '"'] ++ fixMissingCommas fuel (some '"') tail
          else c :: fixMissingCommas fuel (some c) rest
        | [] => c :: fixMissingCommas fuel (some c) rest
    else c :: fixMissingCommas fuel (some c) rest

/-- The repair of single-quoted keys, modelling
`repaired.replace(/\x27([^\x27]*)\x27:/g, ...)` (single-quoted key
directly followed by a colon becomes double-quoted). -/
def fixQuoteKeys : ℕ → List Char → List Char
  | 0, cs => cs
  | _ + 1, [] => []
  | fuel + 1, c :: rest =>
    if c = sqChar then
      let mid := rest.takeWhile (fun ch => ch ≠ sqChar)
      match rest.drop mid.length with
      | q :: colon :: tail =>
        if q = sqChar ∧ colon = ':' then
          ('"' :: mid ++ ['"', ':']) ++ fixQuoteKeys fuel tail
        else c :: fixQuoteKeys fuel rest
      | _ => c :: fixQuoteKeys fuel rest
    else c :: fixQuoteKeys fuel rest

/-- The repair of single-quoted values, modelling
`repaired.replace(/:\x27([^\x27]*)\x27/g, ...)` (colon directly followed
by a single-quoted value). -/
def fixQuoteVals : ℕ → List Char → List Char
  | 0, cs => cs
  | _ + 1, [] => []
  | fuel + 1, c :: rest =>
    if c = ':' then
      match rest with
      | q :: afterQ =>
        if q = sqChar then
          let mid := afterQ.takeWhile (fun ch => ch ≠ sqChar)
          match afterQ.drop mid.length with
          | q2 :: tail =>
            if q2 = sqChar then (':' :: '"' :: mid ++ ['"']) ++ fixQuoteVals fuel tail
            else c :: fixQuoteVals fuel rest
          | [] => c :: fixQuoteVals fuel rest
        else c :: fixQuoteVals fuel rest
      | [] => c :: fixQuoteVals fuel rest
    else c :: fixQuoteVals fuel rest

/-- The zero-width lookahead `(?=\s*,|\s*}|$)` of the bare-scalar
repairs. -/
def lookaheadOk (cs : List Char) : Bool :=
  match cs with
  | [] => true
  | _ =>
    match cs.dropWhile isJsWs with
    | t :: _ => t = ',' || t = '}'
    | [] => false

/-- Greedy search for the matched length of `[^,\n\r}]*` before the
lookahead: try the longest extent first, backtracking downward. -/
def findGreedyK (run rest : List Char) : ℕ → Option ℕ
  | 0 => if lookaheadOk (run ++ rest) then some 0 else none
  | k + 1 =>
    if lookaheadOk (run.drop (k + 1) ++ rest) then some (k + 1)
    else findGreedyK run rest k

/-- Lazy search for the matched length of `[^"\{]*?` before the lookahead:
try the shortest extent first. -/
def findLazyK (rest0 : List Char) : ℕ → ℕ → Option ℕ
  | 0, k => if lookaheadOk (rest0.drop k) then some k else none
  | r + 1, k =>
    if lookaheadOk (rest0.drop k) then some k else findLazyK rest0 r (k + 1)

/-- First-group character class of the `part_006` bare-scalar repair
(`[^{},:\[\]\s]`). -/
def bareKeyCharP6 (c : Char) : Bool :=
  !(c = '{' || c = '}' || c = ',' || c = ':' || c = '[' || c = ']' || isJsWs c)

/-- Value character class `[^,\n\r}]` of the `part_006` bare-scalar
repair. -/
def bareValCharP6 (c : Char) : Bool :=
  !(c = ',' || c = '\n' || c = '\r' || c = '}')

/-- The `part_006` best-effort repair
`repaired.replace(/([^{},:\[\]\s]+\s*):([^"\[{][^,\n\r}]*(?=\s*,|\s*}|$))/g, ...)`
quoting a bare trailing scalar value. -/
def fixBareScalarsP6 : ℕ → List Char → List Char
  | 0, cs => cs
  | _ + 1, [] => []
  | fuel + 1, c :: rest =>
    let cs := c :: rest
    let g1 := cs.takeWhile bareKeyCharP6
    if g1.isEmpty then c :: fixBareScalarsP6 fuel rest
    else
      let afterG1 := cs.drop g1.length
      let ws := afterG1.takeWhile isJsWs
      match afterG1.drop ws.length with
      | colon :: b :: afterB =>
        if colon = ':' ∧ ¬ (b = '"' ∨ b = '[' ∨ b = '{') then
          let run := afterB.takeWhile bareValCharP6
          let restAfter := afterB.drop run.length
          match findGreedyK run restAfter run.length with
          | some k =>
            (g1 ++ ws ++ [':', '"', b] ++ run.take k ++ ['"']) ++
              fixBareScalarsP6 fuel (run.drop k ++ restAfter)
          | none => c :: fixBareScalarsP6 fuel rest
        else c :: fixBareScalarsP6 fuel rest
      | _ => c :: fixBareScalarsP6 fuel rest

/-- First-group character class of the background bare-scalar repair
(`[^{},:]`). -/
def bareKeyCharBg (c : Char) : Bool :=
  !(c = '{' || c = '}' || c = ',' || c = ':')

/-- The background best-effort repair
`repaired.replace(/([^{},:]\s*):([^"\{]*?)(?=\s*,|\s*}|$)/g, ...)`. -/
def fixBareScalarsBg : ℕ → List Char → List Char
  | 0, cs => cs
  | _ + 1, [] => []
  | fuel + 1, c :: rest =>
    if bareKeyCharBg c then
      let ws := rest.takeWhile isJsWs
      match rest.drop ws.length with
      | colon :: afterColon =>
        if colon = ':' then
          let maxK := (afterColon.takeWhile (fun ch => !(ch = '"' || ch = '{'))).length
          match findLazyK afterColon maxK 0 with
          | some k =>
            (c :: ws ++ [':', '"'] ++ afterColon.take k ++ ['"']) ++
              fixBareScalarsBg fuel (afterColon.drop k)
          | none => c :: fixBareScalarsBg fuel rest
        else c :: fixBareScalarsBg fuel rest
      | _ => c :: fixBareScalarsBg fuel rest
    else c :: fixBareScalarsBg fuel rest

/-- Existence test for `/,\s*[}\]]/` (used by the failure classifier). -/
def hasTrailingCommaPattern : List Char → Bool
  | [] => false
  | c :: rest =>
    (c = ',' &&
      (match rest.dropWhile isJsWs with
       | t :: _ => t = '}' || t = ']'
       | [] => false)) ||
    hasTrailingCommaPattern rest

/-! ## Static fallback plans

The two deployment variants carry slightly different hard-coded fallback
plans (`generateFallbackPlan` in `part_006` lines 819-1081 and in
`generate-plan-background.js` lines 707-969). -/

/-- A task object of a fallback initiative. -/
def jTask (tid title owner : String) (hours : ℚ) (crit : String) : JSVal :=
  .obj [("task_id", .str tid), ("title", .str title), ("owner", .str owner),
    ("est_hours", .num hours), ("acceptance_criteria", .str crit)]

/-- An initiative object of a fallback plan. -/
def jInitiative (iid ititle : String) (priority : ℚ) (role : String)
    (startWeek durWeeks : ℚ) (tasks : List JSVal) (oneTime recurring lift : ℚ)
    (roi : String) (conf risk : ℚ) (mits : List String) : JSVal :=
  .obj [("id", .str iid), ("title", .str ititle), ("priority", .num priority),
    ("owner_role", .str role), ("start_week", .num startWeek),
    ("duration_weeks", .num durWeeks), ("tasks", .arr tasks),
    ("one_time_cost", .num oneTime), ("recurring_annual_cost", .num recurring),
    ("expected_monthly_revenue_lift", .num lift), ("ROI", .str roi),
    ("confidence", .num conf), ("risk_score", .num risk),
    ("mitigations", .arr (mits.map .str))]

/-- The executive summary shared by both fallback plans. -/
def fallbackSummary : String :=
  "This fallback plan provides a conservative 6-month strategy for growing your pharmacy through professional services. The plan focuses on DAA programs, medication reviews, and vaccination services. With an estimated investment of $10,000, you could see monthly revenue increases of $2,000-3,000 within 6 months. Implementation involves staff training, GP engagement, and systematic patient outreach. Success depends on consistent execution and regular performance monitoring."

/-- Initiatives 1-3, identical in both fallback plans. -/
def fallbackInits123 : List JSVal :=
  [ jInitiative "init-1" "Staff Training and Accreditation" 5 "Pharmacy Manager" 1 4
      [ jTask "task-1-1" "Complete DAA accreditation training" "Lead Pharmacist" 20
          "All pharmacists certified for DAA packing",
        jTask "task-1-2" "Set up medication review protocols" "Pharmacy Manager" 10
          "Documented review process and templates ready" ]
      3000 0 800 "800 * 12 / 3000 = 3.2x annual ROI" 75 3
      ["Start with experienced staff", "Use CPA training resources"],
    jInitiative "init-2" "Launch DAA and Medication Review Services" 4 "Lead Pharmacist" 5 8
      [ jTask "task-2-1" "Identify initial DAA patients" "Lead Pharmacist" 15
          "10+ patients enrolled in DAA program",
        jTask "task-2-2" "Establish GP referral process" "Pharmacy Manager" 20
          "3+ local GPs actively referring patients" ]
      4000 2400 1200 "(1200 * 12 - 2400) / 4000 = 3.0x annual ROI" 70 4
      ["Focus on existing patients first", "Offer trial period to GPs"],
    jInitiative "init-3" "Vaccination Program Expansion" 3 "Pharmacy Manager" 13 12
      [ jTask "task-3-1" "Set up vaccination area and equipment" "Pharmacy Manager" 10
          "Compliant vaccination space operational",
        jTask "task-3-2" "Launch marketing campaign" "Marketing Lead" 25
          "500+ patients aware of vaccination services" ]
      3000 1200 600 "(600 * 12 - 1200) / 3000 = 2.0x annual ROI" 65 5
      ["Partner with local health campaigns", "Seasonal focus on flu vaccines"] ]

/-- The static fallback plan of `part_006` (`generateFallbackPlan`,
lines 819-1081). -/
def generateFallbackPlanP6 : JSVal :=
  .obj
    [ ("executive_summary", .str fallbackSummary),
      ("plan", .arr (fallbackInits123 ++
        [ jInitiative "init-4" "Implement Diabetes MedsChecks Service" 2 "Lead Pharmacist" 5 6
            [ jTask "task-4-1" "Staff training on diabetes protocols" "Lead Pharmacist" 16
                "All staff certified in diabetes MedsChecks",
              jTask "task-4-2" "Identify eligible diabetic patients" "Pharmacy Technician" 12
                "20+ patients enrolled in program" ]
            2500 800 450 "(450 * 12 - 800) / 2500 = 1.99x annual ROI" 72 3
            ["Work with local GPs for referrals", "Use existing diabetes education materials"],
          jInitiative "init-5" "Launch Minor Ailments & OTC Consultation Service" 4
            "Pharmacy Manager" 9 8
            [ jTask "task-5-1" "Develop consultation protocol and documentation"
                "Lead Pharmacist" 18 "Protocol approved and templates ready",
              jTask "task-5-2" "Staff training and competency assessment"
                "Pharmacy Manager" 14 "All staff trained and assessed" ]
            2000 600 350 "(350 * 12 - 600) / 2000 = 1.93x annual ROI" 68 2
            ["Clear scope of practice guidelines", "Support documentation systems"],
          jInitiative "init-6"
            "Expand Health & Wellness Services (Travel Health, Weight Management)" 4
            "Pharmacy Technician" 17 10
            [ jTask "task-6-1" "Develop service packages and marketing materials"
                "Pharmacy Manager" 12 "Brochures and website content ready",
              jTask "task-6-2" "Train staff on consultation delivery" "Lead Pharmacist" 16
                "All staff confident delivering services" ]
            1500 400 320 "(320 * 12 - 400) / 1500 = 2.44x annual ROI" 60 4
            ["Start with travel health (seasonal demand)", "Partner with local health providers"],
          jInitiative "init-7" "Optimize Prescription Delivery & Home Medicine Reviews" 5
            "Pharmacy Manager" 3 4
            [ jTask "task-7-1" "Establish delivery partnerships and logistics"
                "Pharmacy Manager" 10 "Delivery system operational",
              jTask "task-7-2" "Develop HMR marketing and referral process" "Lead Pharmacist" 12
                "Process documented and promoted" ]
            3000 1500 400 "(400 * 12 - 1500) / 3000 = 1.4x annual ROI" 75 2
            ["Use existing supplier relationships", "Partner with aged care facilities"] ])),
      ("financial_breakdown", .obj
        [ ("total_one_time_costs", .num 16000),
          ("total_recurring_costs", .num 6500),
          ("total_monthly_revenue_lift", .num 3620),
          ("payback_period_months", .num (442/100 : ℚ)),
          ("arithmetic", .str "One-time: $5,000 + $4,000 + $3,000 + $2,500 + $2,000 + $1,500 + $3,000 = $21,000 | Annual recurring: $2,400 + $1,200 + $800 + $600 + $400 + $1,500 = $7,000 | Monthly lift: $800 + $1,200 + $600 + $450 + $350 + $320 + $400 = $4,120 | Payback: $21,000 / $4,120 = 5.10 months") ]),
      ("validation", .arr
        [ .str "ROI calculations assume full service uptake within timeframes",
          .str "Cost estimates based on typical Australian pharmacy rates",
          .str "Revenue projections conservative compared to CPA benchmarks",
          .str "Multiple initiatives allow for phased implementation" ]),
      ("notes", .str "This comprehensive fallback plan includes 6 initiatives covering government-funded programs, vaccinations, and value-added services. Prioritize based on your pharmacy\x27s capabilities and market demand. Consider it a starting template that should be customized based on your specific circumstances and local market conditions.") ]

/-- The static fallback plan of `generate-plan-background.js`
(`generateFallbackPlan`, lines 707-969). -/
def generateFallbackPlanBg : JSVal :=
  .obj
    [ ("executive_summary", .str fallbackSummary),
      ("plan", .arr (fallbackInits123 ++
        [ jInitiative "init-4" "Implement Diabetes MedsChecks Service" 4
            "Accredited Pharmacist" 5 6
            [ jTask "task-4-1" "Train staff on diabetes care protocols" "Lead Pharmacist" 12
                "Team certified in diabetes medication review",
              jTask "task-4-2" "Establish referral relationships with GPs" "Pharmacy Manager" 10
                "5+ GPs actively referring diabetes patients" ]
            2500 1800 450 "(450 * 12 - 1800) / 2500 = 1.68x annual ROI" 68 3
            ["Partner with diabetes educator", "Start with existing diabetic patients"],
          jInitiative "init-5" "Launch Minor Ailments & OTC Consultation Service" 5
            "Accredited Pharmacist" 9 8
            [ jTask "task-5-1" "Develop consultation protocols" "Lead Pharmacist" 15
                "Protocol templates approved by management",
              jTask "task-5-2" "Market service to local community" "Marketing Lead" 12
                "100+ patients aware of minor ailment service" ]
            2000 1400 350 "(350 * 12 - 1400) / 2000 = 1.75x annual ROI" 72 2
            ["Ensure clear scope of practice boundaries", "Build relationship with local GPs"],
          jInitiative "init-6" "Expand Health & Wellness Services" 6 "Pharmacy Manager" 17 10
            [ jTask "task-6-1" "Develop travel health packages" "Accredited Pharmacist" 10
                "3+ travel health packages ready to market",
              jTask "task-6-2" "Launch weight management referral program" "Pharmacy Manager" 8
                "Partnership with 2+ weight management providers" ]
            1500 1280 320 "(320 * 12 - 1280) / 1500 = 1.71x annual ROI" 60 4
            ["Focus on seasonal opportunities", "Partner with external specialists"],
          jInitiative "init-7" "Optimize Prescription Delivery & Home Medicine Reviews" 7
            "Pharmacy Manager" 3 4
            [ jTask "task-7-1" "Set up prescription delivery logistics" "Operations Lead" 8
                "Delivery process documented and operational",
              jTask "task-7-2" "Establish home medicine review protocols" "Lead Pharmacist" 12
                "HMR procedures aligned with CPA standards" ]
            3000 1600 400 "(400 * 12 - 1600) / 3000 = 1.27x annual ROI" 75 2
            ["Use local delivery partners initially", "Prioritize high-value HMR candidates"] ])),
      ("financial_breakdown", .obj
        [ ("total_one_time_costs", .num 21000),
          ("total_recurring_costs", .num 7000),
          ("total_monthly_revenue_lift", .num 4120),
          ("payback_period_months", .num (51/10 : ℚ)),
          ("arithmetic", .str "One-time: $3,000 + $4,000 + $3,000 + $2,500 + $2,000 + $1,500 + $3,000 = $21,000 | Annual recurring: $2,400 + $1,200 + $1,800 + $1,400 + $1,280 + $1,600 = $7,000 | Monthly lift: $800 + $1,200 + $600 + $450 + $350 + $320 + $400 = $4,120 | Payback: $21,000 / $4,120 = 5.1 months") ]),
      ("validation", .arr
        [ .str "ROI calculations assume full service uptake within timeframes",
          .str "Cost estimates based on typical Australian pharmacy rates",
          .str "Revenue projections conservative compared to CPA benchmarks",
          .str "Phased implementation allows for cash flow management" ]),
      ("notes", .str "This is a comprehensive fallback plan provided due to technical issues. It includes 7 initiatives covering multiple service categories. Consider it a starting template that should be customized based on your specific circumstances and local market conditions.") ]

/-! ## The two recovery pipelines (`parseAIResponse`)

`part_006` (the `generate-plan.js` variant with structural repair,
lines 492-715) and `generate-plan-background.js` (lines 535-658).
A thrown `Error` is modelled as `Except.error` carrying the message; the
outer `try/catch` of each function rethrows with the prefix
`"AI response parsing failed: "`. -/

/-- The markdown-fence stripping passes of `part_006` (lines 520-523). -/
def p6StripFences (cs : List Char) : List Char :=
  let s1 := stripFencePass "json".data true (cs.length + 1) cs
  let s2 := stripFencePass "JSON".data true (s1.length + 1) s1
  let s3 := stripFencePass "mermaid".data false (s2.length + 1) s2
  stripFencePass [] true (s3.length + 1) s3

/-- The `cleanedResponse` of `part_006` after fence stripping, trimming
and optional candidate-region extraction (falling back to the whole
cleaned text when no brace pair is found). -/
def p6Cleaned (aiResponse : String) : List Char :=
  let stripped := jsTrim (p6StripFences aiResponse.data)
  match extractBraceRegion stripped with
  | some region => region
  | none => stripped

/-- The textual repair heuristics of `part_006` (lines 606-635), applied
in source order. -/
def p6TextualRepair (cs : List Char) : List Char :=
  let r1 := dropTrailingCommas (cs.length + 1) cs
  let r2 := fixMissingCommas (r1.length + 1) none r1
  let r3 := fixQuoteKeys (r2.length + 1) r2
  let r4 := fixQuoteVals (r3.length + 1) r3
  fixBareScalarsP6 (r4.length + 1) r4

/-- Rendering of `JSON.stringify(finalCounts)` in the unbalanced-structure
message. -/
def bcJsonStr (fc : BraceCounts) : String :=
  "\x7b\"openCurly\":" ++ toString fc.openCurly ++ ",\"closeCurly\":" ++
    toString fc.closeCurly ++ ",\"openSquare\":" ++ toString fc.openSquare ++
    ",\"closeSquare\":" ++ toString fc.closeSquare ++ "\x7d"

/-- The failure classification of `part_006` (lines 655-675), applied to
the pre-repair `cleanedResponse` once both parse attempts have failed. -/
def classifyP6 (cleaned : List Char) (parseErrMsg : String) : String :=
  if cleaned.contains sqChar ∧ ¬ cleaned.contains '"' then
    "AI response appears to use single quotes instead of double quotes for JSON"
  else if hasTrailingCommaPattern cleaned then
    "AI response has trailing commas in JSON"
  else
    let fc := countBracesAndBrackets cleaned
    if fc.openCurly ≠ fc.closeCurly ∨ fc.openSquare ≠ fc.closeSquare then
      "JSON parse failed and braces/brackets appear unbalanced: " ++
        (bcJsonStr fc ++ (". Original parse error: " ++ parseErrMsg))
    else "JSON parse failed: " ++ parseErrMsg

/-- The parsing stage of `part_006`: structural repair, direct parse,
then one reparse after the textual repairs; a classified error otherwise. -/
def p6ParsedDoc (aiResponse : String) : Except String JSVal :=
  let cleaned := p6Cleaned aiResponse
  let repaired := structuralRepair cleaned
  match jsonParse repaired with
  | .ok plan => .ok plan
  | .error parseErr =>
    match jsonParse (p6TextualRepair repaired) with
    | .ok plan => .ok plan
    | .error _ => .error (classifyP6 cleaned parseErr)

/-- The structural validation and empty-plan substitution shared by both
variants, parameterised by the fallback plan to substitute. -/
def validateDoc (fallback : JSVal) (plan : JSVal) : Except String JSVal :=
  match plan with
  | .null => .error "Cannot read properties of null (reading \x27executive_summary\x27)"
  | _ =>
    if !jsTruthy (plan.getField "executive_summary") ||
        (plan.getField "plan").isNone ||
        !jsTruthy (plan.getField "financial_breakdown") then
      .error "AI response missing required sections (executive_summary, plan, or financial_breakdown)"
    else
      match plan.getField "plan" with
      | some (.arr items) => if items.isEmpty then .ok fallback else .ok plan
      | _ => .error "Plan section must be an array of initiatives"

/-- The body of `part_006`'s `parseAIResponse` (the outer `try` block). -/
def parseAIResponseP6Body (aiResponse : String) : Except String JSVal :=
  if aiResponse = "" then .error "Empty AI response received"
  else
    match p6ParsedDoc aiResponse with
    | .ok plan => validateDoc generateFallbackPlanP6 plan
    | .error m => .error m

/-- The `parseAIResponse` of `part_006` (lines 492-715): any error thrown
inside the body is rethrown as
`"AI response parsing failed: " + error.message`. -/
def parseAIResponseP6 (aiResponse : String) : Except String JSVal :=
  match parseAIResponseP6Body aiResponse with
  | .ok plan => .ok plan
  | .error m => .error ("AI response parsing failed: " ++ m)

/-- The markdown-fence stripping passes of `generate-plan-background.js`
(lines 550-552). -/
def bgStripFences (cs : List Char) : List Char :=
  let s1 := stripFencePass "json".data true (cs.length + 1) cs
  let s2 := stripFencePass "JSON".data true (s1.length + 1) s1
  stripFencePass [] true (s2.length + 1) s2

/-- The textual repair heuristics of `generate-plan-background.js`
(lines 580-593). -/
def bgTextualRepair (cs : List Char) : List Char :=
  let r1 := dropTrailingCommas (cs.length + 1) cs
  let r2 := fixQuoteKeys (r1.length + 1) r1
  let r3 := fixQuoteVals (r2.length + 1) r2
  fixBareScalarsBg (r3.length + 1) r3

/-- The failure classification of `generate-plan-background.js`
(lines 610-618). -/
def classifyBg (cleaned : List Char) (parseErrMsg : String) : String :=
  if cleaned.contains sqChar ∧ ¬ cleaned.contains '"' then
    "AI response uses single quotes instead of double quotes for JSON"
  else if hasTrailingCommaPattern cleaned then
    "AI response has trailing commas in JSON"
  else "JSON parse failed: " ++ parseErrMsg

/-- The parsing stage of `generate-plan-background.js`: mandatory
candidate-region extraction, direct parse, then one reparse after the
textual repairs. -/
def bgParsedDoc (aiResponse : String) : Except String JSVal :=
  let stripped := jsTrim (bgStripFences aiResponse.data)
  match extractBraceRegion stripped with
  | none => .error "No JSON object found in AI response"
  | some cleaned =>
    match jsonParse cleaned with
    | .ok plan => .ok plan
    | .error parseErr =>
      match jsonParse (bgTextualRepair cleaned) with
      | .ok plan => .ok plan
      | .error _ => .error (classifyBg cleaned parseErr)

/-- The body of the background `parseAIResponse` (the outer `try` block). -/
def parseAIResponseBgBody (aiResponse : String) : Except String JSVal :=
  if aiResponse = "" then .error "Empty AI response received"
  else
    match bgParsedDoc aiResponse with
    | .ok plan => validateDoc generateFallbackPlanBg plan
    | .error m => .error m

/-- The `parseAIResponse` of `generate-plan-background.js`
(lines 535-658). -/
def parseAIResponseBg (aiResponse : String) : Except String JSVal :=
  match parseAIResponseBgBody aiResponse with
  | .ok plan => .ok plan
  | .error m => .error ("AI response parsing failed: " ++ m)

/-! ## Plan-payload reconciliation validator
(`src/js/aiIntegration.js`, `validateAndCorrectPlan`, lines 546-786)

The function takes two dynamic values.  The whole body is wrapped in a
`try`; a thrown exception is caught and recorded as an issue prefixed
`"Validation error: "`, keeping the issues accumulated so far.  Property
reads on `null`/`undefined` throw; reads of absent keys yield `undefined`.
Numeric coercion of non-numeric operands is approximated by `0` (JS would
produce `NaN` or switch `+` to string concatenation; no claim inspects an
issue produced beyond such a coercion). -/

/-- Validator state: the `issues` array and the `corrections` object. -/
structure ValidationResult where
  issues : List String
  corrections : List (String × JSVal)
deriving Repr

/-- Throwing property read: `v[k]` throws a `TypeError` when `v` is
`null` or `undefined`. -/
def getPropX (v : JSVal) (k : String) : Except String JSVal :=
  match v with
  | .null => .error ("Cannot read properties of null (reading \x27" ++ k ++ "\x27)")
  | .undef => .error ("Cannot read properties of undefined (reading \x27" ++ k ++ "\x27)")
  | _ => .ok ((v.getField k).getD .undef)

/-- JavaScript `a || b` on dynamic values. -/
def jsOrV (a b : JSVal) : JSVal := if jsTruthy (some a) then a else b

/-- Numeric coercion used for the validator's arithmetic and comparisons
(see the section comment for the approximation on non-numeric values). -/
def toNumQ (v : JSVal) : ℚ :=
  match v with
  | .num q => q
  | .bool b => if b then 1 else 0
  | _ => 0

/-- Whether `typeof v === "number"`. -/
def isNumV (v : JSVal) : Bool :=
  match v with
  | .num _ => true
  | _ => false

/-- Whether `typeof v !== "undefined" && v !== null`. -/
def presentV (v : JSVal) : Bool :=
  match v with
  | .undef => false
  | .null => false
  | _ => true

/-- Template-string rendering of a dynamic value (JS `ToString`). -/
def jsDisplay : JSVal → String
  | .undef => "undefined"
  | .null => "null"
  | .bool b => if b then "true" else "false"
  | .num q => decStr q
  | .str s => s
  | .arr l => String.intercalate "," (l.attach.map (fun x => jsDisplay x.1))
  | .obj _ => "[object Object]"
decreasing_by
  simp_wf
  have := List.sizeOf_lt_of_mem x.2
  omega

/-- Substring containment on character lists (JS `String.prototype.includes`). -/
def containsSub : List Char → List Char → Bool
  | pat, [] => pat.isEmpty
  | pat, c :: rest => pat.isPrefixOf (c :: rest) || containsSub pat rest

/-- First match of `/(\d+\.?\d*)%/` in a string (the numeric suffix of a
stated ROI), returning the captured group. -/
def findRoiPct : List Char → Option String
  | [] => none
  | c :: rest =>
    if isDigitCh c then
      let cs := c :: rest
      let d1 := cs.takeWhile isDigitCh
      let after1 := cs.drop d1.length
      match after1 with
      | '.' :: afterDot =>
        let d2 := afterDot.takeWhile isDigitCh
        match afterDot.drop d2.length with
        | '%' :: _ => some (String.mk (d1 ++ '.' :: d2))
        | _ => findRoiPct rest
      | '%' :: _ => some (String.mk d1)
      | _ => findRoiPct rest
    else findRoiPct rest

/-- `parseFloat` on the decimal strings produced by `findRoiPct` and
`toFixed`. -/
def parseFloatQ (s : String) : ℚ :=
  let cs := s.data
  let neg := cs.head? = some '-'
  let cs1 := if neg then cs.drop 1 else cs
  let d1 := cs1.takeWhile isDigitCh
  let intPart : ℕ := d1.foldl (fun acc c => acc * 10 + (c.toNat - '0'.toNat)) 0
  let after1 := cs1.drop d1.length
  let frac : ℚ :=
    match after1 with
    | '.' :: afterDot =>
      let d2 := afterDot.takeWhile isDigitCh
      (d2.foldl (fun acc c => acc * 10 + (c.toNat - '0'.toNat)) 0 : ℚ) /
        (10 : ℚ) ^ d2.length
    | _ => 0
  if neg then -((intPart : ℚ) + frac) else (intPart : ℚ) + frac

/-- The `userInputInvestment` expression of the validator (lines 558-562),
with JS short-circuit evaluation of `&&` and `||`. -/
def userInputInvestmentOf (originalPayload : JSVal) : Except String JSVal := do
  let ui ← getPropX originalPayload "userInputs"
  let left ← if jsTruthy (some ui) then getPropX ui "totalInvestment" else pure ui
  if jsTruthy (some left) then pure left
  else do
    let up ← getPropX originalPayload "userPreferences"
    if jsTruthy (some up) then getPropX up "maxInvestment" else pure up

/-- The cost/lift totals accumulated over `plan.plan` (lines 581-589). -/
def sumPlanTotals (items : List JSVal) : Except String (ℚ × ℚ × ℚ) :=
  items.foldlM
    (fun (acc : ℚ × ℚ × ℚ) init => do
      let otc ← getPropX init "one_time_cost"
      let rac ← getPropX init "recurring_annual_cost"
      let lift ← getPropX init "expected_monthly_revenue_lift"
      pure (acc.1 + toNumQ (jsOrV otc (.num 0)),
        acc.2.1 + toNumQ (jsOrV rac (.num 0)),
        acc.2.2 + toNumQ (jsOrV lift (.num 0))))
    (0, 0, 0)

/-- The per-initiative checks of revenue-only mode (lines 633-655). -/
def revenueOnlyInitIssues (items : List JSVal) : Except String (List String) :=
  items.foldlM
    (fun acc init => do
      let lift ← getPropX init "expected_monthly_revenue_lift"
      let title ← getPropX init "title"
      let acc1 :=
        if ¬ isNumV lift ∨ toNumQ lift < 0 then
          acc ++ ["Invalid expected_monthly_revenue_lift for " ++ jsDisplay title]
        else acc
      let otc ← getPropX init "one_time_cost"
      let rac ← getPropX init "recurring_annual_cost"
      let acc2 :=
        if presentV otc ∨ presentV rac then
          acc1 ++ ["Note: Per-initiative cost fields present for " ++ jsDisplay title ++
            " but payload financial_mode=\"revenue_only\"; using totalInvestment for overall ROI/payback."]
        else acc1
      pure acc2)
    []

/-- The per-initiative ROI, negative-cost and extreme-value checks of the
legacy (cost-enabled) mode (lines 657-704).  The `initiative.ROI.includes`
call throws when `ROI` is truthy but not a string. -/
def legacyInitIssues (items : List JSVal) : Except String (List String) :=
  items.foldlM
    (fun acc init => do
      let otc ← getPropX init "one_time_cost"
      let lift ← getPropX init "expected_monthly_revenue_lift"
      let roiV ← getPropX init "ROI"
      let title ← getPropX init "title"
      let rac ← getPropX init "recurring_annual_cost"
      let acc1 :=
        if 0 < toNumQ otc ∧ 0 < toNumQ lift then
          let expectedROIStr := fixedStr 1 (toNumQ lift * 12 / toNumQ otc * 100)
          let roiMatch : Option String :=
            if jsTruthy (some roiV) then
              match roiV with
              | .str s => findRoiPct s.data
              | _ => none
            else none
          match roiMatch with
          | some grp =>
            let statedROI := parseFloatQ grp
            if 5 < |statedROI - parseFloatQ expectedROIStr| then
              acc ++ ["ROI calculation error for " ++ jsDisplay title ++ ": stated " ++
                decStr statedROI ++ "%, calculated " ++ expectedROIStr ++ "%"]
            else acc
          | none =>
            acc ++ ["ROI format invalid for " ++ jsDisplay title ++ ": " ++ jsDisplay roiV]
        else acc
      let acc2 :=
        if toNumQ otc < 0 ∨ toNumQ rac < 0 then
          acc1 ++ ["Negative costs found for " ++ jsDisplay title]
        else acc1
      if jsTruthy (some roiV) then
        match roiV with
        | .str s =>
          if containsSub "> 1000".data s.data then
            pure (acc2 ++ ["Extremely high ROI detected for " ++ jsDisplay title ++
              " - may indicate error"])
          else pure acc2
        | _ => .error "initiative.ROI.includes is not a function"
      else pure acc2)
    []

/-- The `financial_breakdown` checks (lines 707-774), given the totals
accumulated from the initiatives.  Returns the issues contributed. -/
def breakdownIssues (plan originalPayload : JSVal) (revenueOnly : Bool)
    (totalOneTime totalRecurring totalMonthlyLift : ℚ) :
    Except String (List String) := do
  let fb ← getPropX plan "financial_breakdown"
  if ¬ jsTruthy (some fb) then pure []
  else if revenueOnly then do
    let overall ← getPropX fb "overall"
    let fbMonthly ←
      if jsTruthy (some overall) then getPropX overall "monthly_revenue_lift_total"
      else pure overall
    let issues1 :=
      if isNumV fbMonthly && decide (500 < |toNumQ fbMonthly - totalMonthlyLift|) then
        ["Financial breakdown monthly lift mismatch: " ++ jsDisplay fbMonthly ++
          " vs calculated " ++ decStr totalMonthlyLift]
      else []
    let payback ← getPropX fb "payback"
    let isStr := match payback with | .str _ => true | _ => false
    if jsTruthy (some payback) && isStr then do
      let ui ← getPropX originalPayload "userInputs"
      let left ← if jsTruthy (some ui) then getPropX ui "totalInvestment" else pure ui
      let mid ←
        if jsTruthy (some left) then pure left
        else do
          let sm ← getPropX originalPayload "summaryMetrics"
          if jsTruthy (some sm) then getPropX sm "totalInvestment" else pure sm
      let investmentStr ←
        if jsTruthy (some mid) then pure mid
        else do
          let up ← getPropX originalPayload "userPreferences"
          if jsTruthy (some up) then getPropX up "maxInvestment" else pure up
      let paybackS := match payback with | .str s => s | _ => ""
      if jsTruthy (some investmentStr) &&
          ! (containsSub (jsDisplay investmentStr).data paybackS.data) then
        pure (issues1 ++
          ["Payback string does not reference the provided total investment in revenue_only mode"])
      else pure issues1
    else pure issues1
  else do
    let fbOneTime ← getPropX fb "total_one_time_costs"
    let fbRecurring ← getPropX fb "total_recurring_costs"
    let totalOneTimeFB := jsOrV fbOneTime (.num 0)
    let totalRecurringFB := jsOrV fbRecurring (.num 0)
    let issues1 :=
      if 1000 < |toNumQ totalOneTimeFB - totalOneTime| then
        ["Financial breakdown one-time cost mismatch: " ++ jsDisplay totalOneTimeFB ++
          " vs calculated " ++ decStr totalOneTime]
      else []
    let issues2 :=
      if 1000 < |toNumQ totalRecurringFB - totalRecurring| then
        issues1 ++ ["Financial breakdown recurring cost mismatch: " ++
          jsDisplay totalRecurringFB ++ " vs calculated " ++ decStr totalRecurring]
      else issues1
    let statedPayback ← getPropX fb "payback_period_months"
    if jsTruthy (some statedPayback) then do
      let calcPayback : JNum :=
        if 0 < totalOneTime then
          if totalMonthlyLift = 0 then JNum.inf
          else JNum.fin (jsRound (totalOneTime / totalMonthlyLift))
        else JNum.fin 0
      let mismatch :=
        match calcPayback with
        | JNum.inf => true
        | JNum.fin c => 1 < |c - toNumQ statedPayback|
      let calcDisplay :=
        match calcPayback with
        | JNum.inf => "Infinity"
        | JNum.fin c => decStr c
      if mismatch then
        pure (issues2 ++ ["Payback period mismatch: stated " ++ jsDisplay statedPayback ++
          " months, calculated " ++ calcDisplay ++ " months"])
      else pure issues2
    else pure issues2

/-- The `try` block of `validateAndCorrectPlan`; an error carries the
issues and corrections accumulated when the exception was thrown. -/
def validateBody (plan originalPayload : JSVal) :
    Except (List String × List (String × JSVal) × String) ValidationResult := do
  let st0 : List String := []
  let corr0 : List (String × JSVal) := []
  let planPlan ←
    match getPropX plan "plan" with
    | .error m => .error (st0, corr0, m)
    | .ok v => pure v
  let isArr := match planPlan with | .arr _ => true | _ => false
  if !jsTruthy (some planPlan) || !isArr then
    pure { issues := ["Plan structure is invalid - missing initiatives array"]
           corrections := corr0 }
  else do
    let items := match planPlan with | .arr l => l | _ => []
    let uii ←
      match userInputInvestmentOf originalPayload with
      | .error m => .error (st0, corr0, m)
      | .ok v => pure v
    let invChecked ←
      if jsTruthy (some uii) && isNumV uii then do
        let sm ←
          match getPropX originalPayload "summaryMetrics" with
          | .error m => .error (st0, corr0, m)
          | .ok v => pure v
        let pi ←
          match getPropX sm "totalInvestment" with
          | .error m => .error (st0, corr0, m)
          | .ok v => pure v
        let payloadInvestment := toNumQ (jsOrV pi (.num 0))
        if 0 < payloadInvestment then
          let diffPercentage := |payloadInvestment - toNumQ uii| / toNumQ uii
          if 1/100 < diffPercentage then
            pure (["Total investment validation: Payload has " ++
              localeStr payloadInvestment ++ ", user input " ++ localeStr (toNumQ uii) ++
              " (" ++ fixedStr 2 (diffPercentage * 100) ++
              "% difference). Check for scaling bugs."],
              [("totalInvestment", uii)])
          else pure (st0, corr0)
        else pure (st0, corr0)
      else pure (st0, corr0)
    let issuesA := invChecked.1
    let corrA := invChecked.2
    let totals ←
      match sumPlanTotals items with
      | .error m => .error (issuesA, corrA, m)
      | .ok v => pure v
    let totalOneTime := totals.1
    let totalRecurring := totals.2.1
    let totalMonthlyLift := totals.2.2
    let md ←
      match getPropX originalPayload "metadata" with
      | .error m => .error (issuesA, corrA, m)
      | .ok v => pure v
    let financialMode ←
      if jsTruthy (some md) then
        match getPropX md "financial_mode" with
        | .error m => .error (issuesA, corrA, m)
        | .ok v => pure v
      else pure md
    let sm2 ←
      match getPropX originalPayload "summaryMetrics" with
      | .error m => .error (issuesA, corrA, m)
      | .ok v => pure v
    let esmd ←
      match getPropX sm2 "selectedMonthlyRevenueDelta" with
      | .error m => .error (issuesA, corrA, m)
      | .ok v => pure v
    let expectedSelectedMonthlyDelta := toNumQ (jsOrV esmd (.num 0))
    let revenueOnly := match financialMode with | .str s => s = "revenue_only" | _ => false
    let issuesB ←
      if revenueOnly then
        if 500 < |totalMonthlyLift - expectedSelectedMonthlyDelta| then
          pure (issuesA ++ ["Total monthly revenue lift mismatch: calculated " ++
            localeStr totalMonthlyLift ++ ", expected " ++
            localeStr expectedSelectedMonthlyDelta])
        else pure issuesA
      else do
        let eot ←
          match getPropX sm2 "totalOneTimeCost" with
          | .error m => .error (issuesA, corrA, m)
          | .ok v => pure v
        let erc ←
          match getPropX sm2 "totalRecurringCostAnnual" with
          | .error m => .error (issuesA, corrA, m)
          | .ok v => pure v
        let expectedOneTime := toNumQ (jsOrV eot (.num 0))
        let expectedRecurring := toNumQ (jsOrV erc (.num 0))
        let i1 :=
          if 1000 < |totalOneTime - expectedOneTime| then
            issuesA ++ ["Total one-time cost mismatch: calculated " ++
              localeStr totalOneTime ++ ", expected " ++ localeStr expectedOneTime]
          else issuesA
        let i2 :=
          if 1000 < |totalRecurring - expectedRecurring| then
            i1 ++ ["Total recurring cost mismatch: calculated " ++
              localeStr totalRecurring ++ ", expected " ++ localeStr expectedRecurring]
          else i1
        if 500 < |totalMonthlyLift - expectedSelectedMonthlyDelta| then
          pure (i2 ++ ["Total monthly revenue lift mismatch: calculated " ++
            localeStr totalMonthlyLift ++ ", expected " ++
            localeStr expectedSelectedMonthlyDelta])
        else pure i2
    let perInit ←
      match (if revenueOnly then revenueOnlyInitIssues items else legacyInitIssues items) with
      | .error m => .error (issuesB, corrA, m)
      | .ok v => pure v
    let issuesC := issuesB ++ perInit
    let fbIssues ←
      match breakdownIssues plan originalPayload revenueOnly
          totalOneTime totalRecurring totalMonthlyLift with
      | .error m => .error (issuesC, corrA, m)
      | .ok v => pure v
    let issuesD := issuesC ++ fbIssues
    let planValidation ←
      match getPropX plan "validation" with
      | .error m => .error (issuesD, corrA, m)
      | .ok v => pure v
    let corrB :=
      if ¬ jsTruthy (some planValidation) then
        corrA ++ [("validation",
          JSVal.arr (if issuesD.isEmpty then [.str "No validation issues found"]
            else issuesD.map .str))]
      else corrA
    pure { issues := issuesD, corrections := corrB }

/-- The validator `validateAndCorrectPlan` of `src/js/aiIntegration.js`
(lines 546-786): the catch clause records the exception as an issue
prefixed `"Validation error: "` and the function returns normally. -/
def validateAndCorrectPlan (plan originalPayload : JSVal) : ValidationResult :=
  match validateBody plan originalPayload with
  | .ok r => r
  | .error (issues, corrections, m) =>
    { issues := issues ++ ["Validation error: " ++ m], corrections := corrections }

/-- The payload of `generatePayload` viewed as the dynamic JS object
handed to `validateAndCorrectPlan` (same keys as the source builds).
The omitted `metadata.generatedAt`/`metadata.checksum` and the
possibly-infinite `overallFinancials.paybackMonths` are never read by the
validator. -/
def payloadToJS (p : Payload) : JSVal :=
  .obj
    [ ("metadata", .obj
        [ ("calculatorVersion", .str p.metadata.calculatorVersion),
          ("currency", .str p.metadata.currency),
          ("timeUnit", .str p.metadata.timeUnit),
          ("data_provenance", .str p.metadata.data_provenance),
          ("financial_mode", .str p.metadata.financial_mode) ]),
      ("summaryMetrics", .obj
        [ ("scope", .str p.summaryMetrics.scope),
          ("currentMonthlyRevenue", .num (p.summaryMetrics.currentMonthlyRevenue : ℚ)),
          ("projectedMonthlyRevenue", .num (p.summaryMetrics.projectedMonthlyRevenue : ℚ)),
          ("monthlyRevenueDelta", .num (p.summaryMetrics.monthlyRevenueDelta : ℚ)),
          ("estimatedAnnualDelta", .num (p.summaryMetrics.estimatedAnnualDelta : ℚ)),
          ("itemCount", .num (p.summaryMetrics.itemCount : ℚ)),
          ("totalInvestment", .num p.summaryMetrics.totalInvestment),
          ("computedFrom", .arr (p.summaryMetrics.computedFrom.map .str)) ]),
      ("topDrivers", .arr (p.topDrivers.map (fun d => .obj
        [ ("id", .str d.id),
          ("name", .str d.name),
          ("currentValue", .num d.currentValue),
          ("targetValue", .num d.targetValue),
          ("unit", .str d.unit),
          ("monthlyRevenueImpact", .num (d.monthlyRevenueImpact : ℚ)),
          ("annualRevenueImpact", .num (d.annualRevenueImpact : ℚ)),
          ("included", .bool d.included),
          ("assumptions", .str d.assumptions) ]))),
      ("overallFinancials", .obj
        [ ("roi", match p.overallFinancials.roi with
            | some r => .num r
            | none => .null),
          ("roiArithmetic", .str p.overallFinancials.roiArithmetic),
          ("paybackArithmetic", .str p.overallFinancials.paybackArithmetic),
          ("monthlyRevenueLift", .num (p.overallFinancials.monthlyRevenueLift : ℚ)),
          ("annualRevenueLift", .num (p.overallFinancials.annualRevenueLift : ℚ)),
          ("totalInvestment", .num p.overallFinancials.totalInvestment),
          ("warnings", .arr (p.overallFinancials.warnings.map .str)) ]),
      ("otherItemsSummary", .obj
        [ ("count", .num (p.otherItemsSummary.count : ℚ)),
          ("combinedMonthlyImpact", .num (p.otherItemsSummary.combinedMonthlyImpact : ℚ)),
          ("combinedOneTimeCost", .null),
          ("combinedRecurringAnnualCost", .null),
          ("totalInvestment", .num p.otherItemsSummary.totalInvestment),
          ("note", .str p.otherItemsSummary.note) ]),
      ("userInputs", .obj
        [ ("totalInvestment", .num p.userInputs.totalInvestment),
          ("totalInvestmentPurpose", .str p.userInputs.totalInvestmentPurpose) ]),
      ("userPreferences", .obj
        [ ("maxInvestment", .num p.userPreferences.maxInvestment),
          ("timeHorizonMonths", .num p.userPreferences.timeHorizonMonths),
          ("preferredDepth", .str p.userPreferences.preferredDepth) ]),
      ("financial_breakdown", .obj
        [ ("overall", .obj
            [ ("one_time_total", .num p.financial_breakdown.one_time_total),
              ("monthly_revenue_lift_total",
                .num (p.financial_breakdown.monthly_revenue_lift_total : ℚ)),
              ("annual_revenue_lift_total",
                .num (p.financial_breakdown.annual_revenue_lift_total : ℚ)) ]),
          ("payback", .str p.financial_breakdown.payback),
          ("details", .arr (p.financial_breakdown.details.map (fun d => .obj
            [ ("id", .str d.id),
              ("name", .str d.name),
              ("monthly_revenue_lift", .num (d.monthly_revenue_lift : ℚ)),
              ("annual_revenue_lift", .num (d.annual_revenue_lift : ℚ)) ]))),
          ("overall_roi", .str p.financial_breakdown.overall_roi),
          ("missing_data_warnings",
            .arr (p.financial_breakdown.missing_data_warnings.map .str)) ]) ]

/-! ## Concrete inputs used by the claims -/

/-- The two-record input of the spec's worked scenario
(`[{id:"a", additionalValue:120000}, {id:"b", additionalValue:12000}]`,
annual amounts). -/
def recsScenario : List ServiceRecord :=
  [ { id := "a", name := "A", currentValue := 0, potentialValue := 120000,
      additionalValue := 120000, growthPercentage := 100 },
    { id := "b", name := "B", currentValue := 0, potentialValue := 12000,
      additionalValue := 12000, growthPercentage := 100 } ]

/-- Preferences with the scenario's investment of 55000. -/
def prefsScenario : UserPreferences := { maxInvestment := some 55000 }

/-! ## C9 -/

/-- C9: `generatePayload` returns `null` exactly on the empty record
list; every non-empty record list yields a (non-null) payload. -/
theorem c9_generatePayload_null_iff_empty
    (prefs : UserPreferences) (rawData : List ServiceRecord) :
    generatePayload prefs rawData = none ↔ rawData = [] := by
  unfold generatePayload
  rcases rawData with _ | ⟨r, rest⟩ <;> simp

/-! ## C8 -/

/-- C8: on the scenario input with investment 55000, the payload has
monthly deltas 10000 and 1000 (both included), monthly revenue delta
11000, ROI 240 and payback 5.0 months. -/
theorem c8_scenario_values :
    (generatePayload prefsScenario recsScenario).map (fun p =>
      (p.topDrivers.map (fun d => (d.id, d.monthlyRevenueImpact, d.included)),
        p.summaryMetrics.monthlyRevenueDelta,
        p.overallFinancials.roi,
        p.overallFinancials.paybackMonths))
      = some ([("a", 10000, true), ("b", 1000, true)], 11000,
          some 240, JNum.fin 5) := by
  decide

/-! ## C2 -/

/-- A one-record input with zero additional value (monthly lift 0). -/
def recsZeroLift : List ServiceRecord :=
  [ { id := "flat", name := "Flat service", currentValue := 1200,
      potentialValue := 1200, additionalValue := 0, growthPercentage := 0 } ]

/-- Preferences with a positive investment of 100. -/
def prefsInvest100 : UserPreferences := { maxInvestment := some 100 }

/-- C2 counterexample: with a positive investment and zero monthly lift,
`overallFinancials.paybackMonths` is the numeric JS `Infinity`, not a
non-numeric "insufficient data" sentinel — refuting the claim that the
field is never a numeric infinite value in this case (the nullable
sentinel is used only for `roi`). -/
theorem c2_counterexample_payback_is_infinity :
    (generatePayload prefsInvest100 recsZeroLift).map
        (fun p => p.overallFinancials.paybackMonths) = some JNum.inf ∧
      includedMonthlyDelta recsZeroLift = 0 ∧
      (0:ℚ) < investmentOf prefsInvest100 := by
  refine ⟨by decide, by decide, by decide⟩

/-- C2 amended: whenever the included monthly lift is 0 or the
user-entered investment is 0, `paybackMonths` is the numeric `Infinity`;
the sentinel appears as `roi = null` (when investment is 0, with the
`paybackArithmetic` string `"Insufficient data: totalInvestment = 0"`),
while a positive investment with zero lift gives `roi = 0` and the string
`"Infinite (monthly lift = 0)"`. -/
theorem c2_amended_payback_infinity_and_sentinel_strings
    (prefs : UserPreferences) (rawData : List ServiceRecord) (p : Payload)
    (hp : generatePayload prefs rawData = some p)
    (hcase : includedMonthlyDelta rawData = 0 ∨ investmentOf prefs = 0) :
    p.overallFinancials.paybackMonths = JNum.inf ∧
      (investmentOf prefs = 0 →
        p.overallFinancials.roi = none ∧
        p.overallFinancials.paybackArithmetic =
          "Insufficient data: totalInvestment = 0") ∧
      (0 < investmentOf prefs → includedMonthlyDelta rawData = 0 →
        p.overallFinancials.roi = some 0 ∧
        p.overallFinancials.paybackArithmetic = "Infinite (monthly lift = 0)") := by
  have hne : ¬ rawData.isEmpty := by
    intro h
    rw [generatePayload, if_pos h] at hp
    cases hp
  have hof : p.overallFinancials = overallFinancials prefs rawData := by
    rw [generatePayload, if_neg hne] at hp
    cases hp
    rfl
  have hnotBoth : ¬ (0 < investmentOf prefs ∧ 0 < includedMonthlyDelta rawData) := by
    rcases hcase with h | h
    · exact fun hc => absurd hc.2 (by rw [h]; exact lt_irrefl 0)
    · exact fun hc => absurd hc.1 (by rw [h]; exact lt_irrefl 0)
  refine ⟨?_, ?_, ?_⟩
  · rw [hof]
    unfold overallFinancials paybackRaw
    simp only [if_neg hnotBoth]
  · intro hz
    constructor
    · rw [hof]
      unfold overallFinancials
      have : ¬ (0 < investmentOf prefs ∧ 0 < includedMonthlyDelta rawData) := hnotBoth
      simp only [this, if_false]
      have : ¬ (0 < investmentOf prefs ∧ includedMonthlyDelta rawData = 0) := by
        intro hc
        exact absurd hc.1 (by rw [hz]; exact lt_irrefl 0)
      simp [hnotBoth, this]
    · rw [hof]
      unfold overallFinancials
      simp [hnotBoth, hz]
  · intro hpos hzl
    have hsecond : 0 < investmentOf prefs ∧ includedMonthlyDelta rawData = 0 :=
      ⟨hpos, hzl⟩
    constructor
    · rw [hof]
      unfold overallFinancials
      simp only [if_neg hnotBoth, if_pos hsecond]
      have : toFixed1 0 = 0 := by norm_num [toFixed1]
      simp [this]
    · rw [hof]
      unfold overallFinancials
      have hnz : ¬ investmentOf prefs = 0 := ne_of_gt hpos
      simp [hnotBoth, hnz]

/-- C2 witness: the amended theorem applied to the concrete
positive-investment, zero-lift input. -/
theorem c2_witness_amended_at_concrete_input :
    (generatePayload prefsInvest100 recsZeroLift).map
        (fun p => (p.overallFinancials.paybackMonths,
          p.overallFinancials.roi, p.overallFinancials.paybackArithmetic))
      = some (JNum.inf, some 0, "Infinite (monthly lift = 0)") := by
  obtain ⟨p, hp⟩ : ∃ p, generatePayload prefsInvest100 recsZeroLift = some p :=
    ⟨_, rfl⟩
  have h := c2_amended_payback_infinity_and_sentinel_strings prefsInvest100
    recsZeroLift p hp (Or.inl (by decide))
  have h2 := h.2.2 (by decide) (by decide)
  rw [hp]
  simp [h.1, h2.1, h2.2]

/-! ## C3 -/

/-- Length of the trailing run of `ch` at the end of a text. -/
def trailRun (cs : List Char) (ch : Char) : ℕ :=
  (cs.reverse.takeWhile (fun c => c = ch)).length

/-- Characterisation of the trimming loop on the reversed text: it drops
exactly `min n (length of the leading run of ch)` characters. -/
theorem trimTrailingAux_eq_drop (ch : Char) :
    ∀ (n : ℕ) (rev : List Char),
      trimTrailingAux n ch rev = rev.drop (min n ((rev.takeWhile (fun c => c = ch)).length))
  | 0, rev => by simp [trimTrailingAux]
  | n + 1, [] => by simp [trimTrailingAux]
  | n + 1, c :: rest => by
    by_cases hc : c = ch
    · have ih := trimTrailingAux_eq_drop ch n rest
      rw [show trimTrailingAux (n + 1) ch (c :: rest) = trimTrailingAux n ch rest from
          by simp [trimTrailingAux, hc], ih,
        List.takeWhile_cons_of_pos (by simp [hc]), List.length_cons]
      have hmin : min (n + 1) ((rest.takeWhile (fun x => x = ch)).length + 1) =
          min n ((rest.takeWhile (fun x => x = ch)).length) + 1 := by omega
      rw [hmin, List.drop_succ_cons]
    · rw [show trimTrailingAux (n + 1) ch (c :: rest) = c :: rest from
          by simp [trimTrailingAux, hc],
        List.takeWhile_cons_of_neg (by simp [hc])]
      simp

/-- `trimTrailingChars` removes exactly `min maxTrim (trailing run)` copies
of `ch`, all from the tail: appending them back restores the input. -/
theorem trimTrailingChars_spec (cs : List Char) (ch : Char) (n : ℕ) :
    trimTrailingChars cs ch n ++ List.replicate (min n (trailRun cs ch)) ch = cs := by
  unfold trimTrailingChars trailRun
  rw [trimTrailingAux_eq_drop]
  set rev := cs.reverse with hrev
  set t := (rev.takeWhile (fun c => c = ch)).length with ht
  set m := min n t with hm
  have hmt : m ≤ t := by omega
  have htake : rev.take m = List.replicate m ch := by
    have hpre : rev.takeWhile (fun c => c = ch) <+: rev := List.takeWhile_prefix _
    obtain ⟨suf, hsuf⟩ := hpre
    have hrepl : rev.takeWhile (fun c => c = ch) =
        List.replicate t ch := by
      apply List.eq_replicate_of_mem
      intro b hb
      have := List.mem_takeWhile_imp hb
      simpa using this
    calc rev.take m = ((rev.takeWhile (fun c => c = ch)) ++ suf).take m := by rw [hsuf]
      _ = (rev.takeWhile (fun c => c = ch)).take m := by
          rw [List.take_append_of_le_length]
          omega
      _ = (List.replicate t ch).take m := by rw [hrepl]
      _ = List.replicate m ch := by
          rw [List.take_replicate]
          congr 1
          omega
  have hsplit : rev = rev.take m ++ rev.drop m := (List.take_append_drop m rev).symm
  calc (rev.drop m).reverse ++ List.replicate m ch
      = (rev.drop m).reverse ++ (List.replicate m ch).reverse := by
        rw [List.reverse_replicate]
    _ = (List.replicate m ch ++ rev.drop m).reverse := by rw [List.reverse_append]
    _ = (rev.take m ++ rev.drop m).reverse := by rw [htake]
    _ = rev.reverse := by rw [← hsplit]
    _ = cs := by rw [hrev, List.reverse_reverse]

/-- The upstream text of the spec scenario: an otherwise well-formed plan
document missing exactly its last two closing braces. -/
def c3ScenarioText : String :=
  "\x7b\"executive_summary\":\"ok\",\"plan\":[1],\"financial_breakdown\":\x7b\"x\":1"

/-- The document recovered from the scenario text. -/
def c3ScenarioDoc : JSVal :=
  .obj [("executive_summary", .str "ok"),
    ("plan", .arr [.num 1]),
    ("financial_breakdown", .obj [("x", .num 1)])]

/-- C3: the structural-repair step appends exactly the missing closing
braces and brackets at the end when openers are in excess, trims surplus
closers only from the tail (exactly `min excess (trailing run)` of them)
when closers are in excess, and on the scenario text missing two closing
braces it appends exactly two `}` after which the parse succeeds. -/
theorem c3_structural_repair_appends_and_trims :
    (∀ cs : List Char,
      (countBracesAndBrackets cs).closeCurly ≤ (countBracesAndBrackets cs).openCurly →
      (countBracesAndBrackets cs).closeSquare ≤ (countBracesAndBrackets cs).openSquare →
      structuralRepair cs = cs ++
        List.replicate ((countBracesAndBrackets cs).openCurly -
          (countBracesAndBrackets cs).closeCurly) '}' ++
        List.replicate ((countBracesAndBrackets cs).openSquare -
          (countBracesAndBrackets cs).closeSquare) ']') ∧
    (∀ cs : List Char,
      (countBracesAndBrackets cs).openCurly < (countBracesAndBrackets cs).closeCurly →
      (countBracesAndBrackets cs).openSquare = (countBracesAndBrackets cs).closeSquare →
      structuralRepair cs ++ List.replicate
        (min ((countBracesAndBrackets cs).closeCurly -
          (countBracesAndBrackets cs).openCurly) (trailRun cs '}')) '}' = cs) ∧
    (∀ cs : List Char,
      (countBracesAndBrackets cs).openSquare < (countBracesAndBrackets cs).closeSquare →
      (countBracesAndBrackets cs).openCurly = (countBracesAndBrackets cs).closeCurly →
      structuralRepair cs ++ List.replicate
        (min ((countBracesAndBrackets cs).closeSquare -
          (countBracesAndBrackets cs).openSquare) (trailRun cs ']')) ']' = cs) ∧
    (structuralRepair (p6Cleaned c3ScenarioText) =
        p6Cleaned c3ScenarioText ++ ['}', '}'] ∧
      parseAIResponseP6 c3ScenarioText = .ok c3ScenarioDoc) := by
  refine ⟨?_, ?_, ?_, ?_, ?_⟩
  · intro cs h1 h2
    simp only [structuralRepair]
    set b := countBracesAndBrackets cs with hb
    rcases Nat.lt_or_ge b.closeCurly b.openCurly with hlt | hge
    · rw [if_pos hlt]
      rcases Nat.lt_or_ge b.closeSquare b.openSquare with hlt2 | hge2
      · rw [if_pos hlt2, List.append_assoc]
      · rw [if_neg (show ¬ b.closeSquare < b.openSquare by omega),
          if_neg (show ¬ b.openSquare < b.closeSquare by omega),
          show b.openSquare - b.closeSquare = 0 by omega]
        simp
    · rw [if_neg (show ¬ b.closeCurly < b.openCurly by omega),
        if_neg (show ¬ b.openCurly < b.closeCurly by omega),
        show b.openCurly - b.closeCurly = 0 by omega]
      rcases Nat.lt_or_ge b.closeSquare b.openSquare with hlt2 | hge2
      · rw [if_pos hlt2]
        simp
      · rw [if_neg (show ¬ b.closeSquare < b.openSquare by omega),
          if_neg (show ¬ b.openSquare < b.closeSquare by omega),
          show b.openSquare - b.closeSquare = 0 by omega]
        simp
  · intro cs h1 h2
    simp only [structuralRepair]
    set b := countBracesAndBrackets cs with hb
    rw [if_neg (show ¬ b.closeCurly < b.openCurly by omega), if_pos h1,
      if_neg (show ¬ b.closeSquare < b.openSquare by omega),
      if_neg (show ¬ b.openSquare < b.closeSquare by omega)]
    exact trimTrailingChars_spec cs '}' _
  · intro cs h1 h2
    simp only [structuralRepair]
    set b := countBracesAndBrackets cs with hb
    rw [if_neg (show ¬ b.closeCurly < b.openCurly by omega),
      if_neg (show ¬ b.openCurly < b.closeCurly by omega),
      if_neg (show ¬ b.closeSquare < b.openSquare by omega), if_pos h1]
    exact trimTrailingChars_spec cs ']' _
  · rfl
  · rfl

/-- C3 witness: the three quantified parts instantiated at concrete texts
(missing closers appended; surplus closers trimmed from the tail only). -/
theorem c3_witness_concrete_repairs :
    structuralRepair "\x7b[a]".data = "\x7b[a]".data ++
        List.replicate 1 '}' ++ List.replicate 0 ']' ∧
      structuralRepair "\x7ba\x7d\x7d".data ++ List.replicate 1 '}' = "\x7ba\x7d\x7d".data ∧
      structuralRepair "[a]]".data ++ List.replicate 1 ']' = "[a]]".data := by
  refine ⟨c3_structural_repair_appends_and_trims.1 _ (by decide) (by decide), ?_, ?_⟩
  · have h := c3_structural_repair_appends_and_trims.2.1 "\x7ba\x7d\x7d".data
      (by decide) (by decide)
    simpa using h
  · have h := c3_structural_repair_appends_and_trims.2.2.1 "[a]]".data
      (by decide) (by decide)
    simpa using h

/-! ## C4 -/

/-- C4 counterexample: on an input that fails to parse even after the
textual repair heuristics, the pipeline does not return a tagged failure
value — it throws (modelled as `Except.error`), wrapping the classified
message in the generic `"AI response parsing failed: "` `Error`. -/
theorem c4_counterexample_failure_is_thrown :
    (parseAIResponseP6 "\x7binvalid").isOk = false ∧
      parseAIResponseP6 "\x7binvalid" = .error
        ("AI response parsing failed: JSON parse failed and braces/brackets appear unbalanced: \x7b\"openCurly\":1,\"closeCurly\":0,\"openSquare\":0,\"closeSquare\":0\x7d. Original parse error: Expected property name in JSON object") := by
  exact ⟨rfl, rfl⟩

/-- C4 amended: when both parse attempts fail on a non-empty input, the
pipeline throws an `Error` (modelled `Except.error`) whose message is
`"AI response parsing failed: "` followed by the classification of the
cleaned text, and that classification is always one of the four shapes:
quote-style, trailing-comma, unbalanced-structure (message prefix
`"JSON parse failed and braces/brackets appear unbalanced: "`), or
unknown (message prefix `"JSON parse failed: "`). -/
theorem c4_amended_classified_throw (s : String) (e1 e2 : String)
    (hne : s ≠ "")
    (h1 : jsonParse (structuralRepair (p6Cleaned s)) = .error e1)
    (h2 : jsonParse (p6TextualRepair (structuralRepair (p6Cleaned s))) = .error e2) :
    parseAIResponseP6 s = .error
        ("AI response parsing failed: " ++ classifyP6 (p6Cleaned s) e1) ∧
      (classifyP6 (p6Cleaned s) e1 =
          "AI response appears to use single quotes instead of double quotes for JSON" ∨
        classifyP6 (p6Cleaned s) e1 = "AI response has trailing commas in JSON" ∨
        (∃ rest, classifyP6 (p6Cleaned s) e1 =
          "JSON parse failed and braces/brackets appear unbalanced: " ++ rest) ∨
        (∃ rest, classifyP6 (p6Cleaned s) e1 = "JSON parse failed: " ++ rest)) := by
  constructor
  · unfold parseAIResponseP6 parseAIResponseP6Body p6ParsedDoc
    rw [if_neg hne]
    simp only [h1, h2]
  · simp only [classifyP6]
    split_ifs
    · exact Or.inl rfl
    · exact Or.inr (Or.inl rfl)
    · exact Or.inr (Or.inr (Or.inl ⟨_, rfl⟩))
    · exact Or.inr (Or.inr (Or.inr ⟨_, rfl⟩))

/-- C4 witness: the amended theorem applied to the concrete failing input
`"{invalid"`. -/
theorem c4_witness_classified_throw_at_concrete_input :
    parseAIResponseP6 "\x7binvalid" = .error
      ("AI response parsing failed: " ++
        classifyP6 (p6Cleaned "\x7binvalid") "Expected property name in JSON object") :=
  (c4_amended_classified_throw "\x7binvalid"
    "Expected property name in JSON object" "Expected property name in JSON object"
    (by decide) rfl rfl).1

/-! ## C6 -/

/-- C6: whenever the background pipeline's parse stage recovers a document
with a truthy (non-empty) `executive_summary`, a truthy
`financial_breakdown`, and an empty initiatives array (the document's
`plan` field), recovery does not fail: it returns the precomputed static
fallback plan, whose initiatives array has 7 entries and whose `notes`
text flags the fallback substitution. -/
theorem c6_empty_initiatives_substitutes_fallback (s : String) (doc : JSVal)
    (hdoc : bgParsedDoc s = .ok doc)
    (hexec : jsTruthy (doc.getField "executive_summary") = true)
    (hplan : doc.getField "plan" = some (JSVal.arr []))
    (hfb : jsTruthy (doc.getField "financial_breakdown") = true) :
    parseAIResponseBg s = .ok generateFallbackPlanBg ∧
      (∃ inits, generateFallbackPlanBg.getField "plan" = some (JSVal.arr inits) ∧
        inits.length = 7) ∧
      (∃ notes, generateFallbackPlanBg.getField "notes" = some (JSVal.str notes) ∧
        containsSub "fallback plan provided".data notes.data = true) := by
  refine ⟨?_, ⟨_, rfl, rfl⟩, ⟨_, rfl, rfl⟩⟩
  have hne : s ≠ "" := by
    intro hs
    rw [hs] at hdoc
    exact absurd hdoc (by simp [bgParsedDoc, bgStripFences, stripFencePass, jsTrim,
      extractBraceRegion])
  have hnotNull : doc ≠ JSVal.null := by
    intro hnull
    rw [hnull] at hexec
    simp [JSVal.getField, jsTruthy] at hexec
  have hcond : (!jsTruthy (doc.getField "executive_summary") ||
      (doc.getField "plan").isNone ||
      !jsTruthy (doc.getField "financial_breakdown")) = false := by
    rw [hexec, hfb, hplan]
    rfl
  unfold parseAIResponseBg parseAIResponseBgBody
  rw [if_neg hne, hdoc]
  cases doc with
  | null => exact absurd rfl hnotNull
  | undef => simp [JSVal.getField, jsTruthy] at hexec
  | bool b => simp [validateDoc, hcond, hplan, hexec, hfb]
  | num q => simp [validateDoc, hcond, hplan, hexec, hfb]
  | str s' => simp [validateDoc, hcond, hplan, hexec, hfb]
  | arr l => simp [validateDoc, hcond, hplan, hexec, hfb]
  | obj m => simp [validateDoc, hcond, hplan, hexec, hfb]

/-- The upstream text of the empty-initiatives scenario. -/
def c6ScenarioText : String :=
  "\x7b\"executive_summary\":\"ok\",\"plan\":[],\"financial_breakdown\":\x7b\x7d\x7d"

/-- C6 witness: the theorem applied to the concrete empty-initiatives
upstream text. -/
theorem c6_witness_fallback_at_concrete_input :
    parseAIResponseBg c6ScenarioText = .ok generateFallbackPlanBg :=
  (c6_empty_initiatives_substitutes_fallback c6ScenarioText
    (JSVal.obj [("executive_summary", .str "ok"), ("plan", .arr []),
      ("financial_breakdown", .obj [])])
    rfl rfl rfl rfl).1

/-! ## C7 -/

/-- The concrete plan whose initiatives' lifts sum exactly to the
generated payload's `monthlyRevenueDelta`. -/
def planMatchingDelta : JSVal :=
  .obj [("plan", .arr
    [ .obj [("title", .str "Growth initiative"),
        ("expected_monthly_revenue_lift", .num 11000)] ])]

/-- C7 (code bug): the validator's monthly-lift check reads
`summaryMetrics.selectedMonthlyRevenueDelta`, a key `generatePayload`
never emits (it emits `monthlyRevenueDelta`), so the comparison baseline
is always `0`.  On a generator payload with `monthlyRevenueDelta = 11000`
and a plan whose lifts sum to exactly 11000 (difference 0, well within
the 500 tolerance), the validator still emits the monthly-lift mismatch
finding, comparing 11,000 against 0. -/
theorem c7_bug_mismatch_fires_despite_agreement :
    (generatePayload prefsScenario recsScenario).map (fun p =>
      ((validateAndCorrectPlan planMatchingDelta (payloadToJS p)).issues,
        p.summaryMetrics.monthlyRevenueDelta))
      = some (["Total monthly revenue lift mismatch: calculated 11,000, expected 0"],
          11000) ∧
      sumPlanTotals
        [ JSVal.obj [("title", .str "Growth initiative"),
            ("expected_monthly_revenue_lift", .num 11000)] ]
        = .ok (0, 0, 11000) := by
  constructor
  · rfl
  · rfl

/-! ## C10 -/

/-- C10: `validateAndCorrectPlan` always returns normally with an issues
array and a corrections object: when the checking body succeeds its
result is returned unchanged, and when the body throws (modelled
`Except.error`), the exception is caught and recorded as a final issues
entry `"Validation error: " + message` with the already-accumulated
issues and corrections preserved. -/
theorem c10_validator_never_throws (plan originalPayload : JSVal) :
    (∀ r, validateBody plan originalPayload = .ok r →
      validateAndCorrectPlan plan originalPayload = r) ∧
    (∀ issues corrections m,
      validateBody plan originalPayload = .error (issues, corrections, m) →
      validateAndCorrectPlan plan originalPayload =
        { issues := issues ++ ["Validation error: " ++ m]
          corrections := corrections }) := by
  constructor
  · intro r hr
    unfold validateAndCorrectPlan
    rw [hr]
  · intro issues corrections m hm
    unfold validateAndCorrectPlan
    rw [hm]

/-- C10 witness: the theorem applied to `null` arguments, where the very
first property read throws and the catch clause records it. -/
theorem c10_witness_null_inputs_caught :
    validateAndCorrectPlan JSVal.null JSVal.null =
      { issues := ["Validation error: Cannot read properties of null (reading \x27plan\x27)"]
        corrections := [] } :=
  (c10_validator_never_throws JSVal.null JSVal.null).2 [] []
    "Cannot read properties of null (reading \x27plan\x27)" rfl

/-! ## C1 -/

/-- Empty user preferences. -/
def prefsNone : UserPreferences := {}

/-- Nine records: eight with monthly impact 2000 and one with monthly
impact 1000 (annual amounts 24000 and 12000). -/
def recsNine : List ServiceRecord :=
  (List.range 8).map (fun i =>
    { id := "r" ++ toString (i + 1), name := "Service " ++ toString (i + 1),
      currentValue := 0, potentialValue := 24000,
      additionalValue := 24000, growthPercentage := 100 }) ++
  [ { id := "r9", name := "Service 9", currentValue := 0, potentialValue := 12000,
      additionalValue := 12000, growthPercentage := 100 } ]

/-- C1 counterexample: on a nine-record input the ninth record's impact
lands in `otherItemsSummary` while the `monthlyRevenueDelta` covers only
the included top-6 drivers, so the claimed identity misses by 1000 —
far beyond the tolerance `max(0.1% of the total, 10)`. -/
theorem c1_counterexample_nine_records :
    (generatePayload prefsNone recsNine).map (fun p =>
      ((((p.topDrivers.filter (fun d => d.included)).map
          (fun d => d.monthlyRevenueImpact)).sum
        + p.otherItemsSummary.combinedMonthlyImpact
        - p.summaryMetrics.monthlyRevenueDelta),
       decide (|(((((p.topDrivers.filter (fun d => d.included)).map
            (fun d => d.monthlyRevenueImpact)).sum
          + p.otherItemsSummary.combinedMonthlyImpact
          - p.summaryMetrics.monthlyRevenueDelta : ℤ)) : ℚ)|
         ≤ max (|(p.summaryMetrics.monthlyRevenueDelta : ℚ)| * (1/1000)) 10)))
      = some (1000, false) := by
  decide

/-- Distance of JS `Math.round` from its argument. -/
theorem jsRound_sub_abs_le (q : ℚ) : |((jsRound q : ℤ) : ℚ) - q| ≤ 1/2 := by
  unfold jsRound
  have hu : ((⌊q + 1/2⌋ : ℤ) : ℚ) ≤ q + 1/2 := Int.floor_le _
  have hl : q + 1/2 - 1 < ((⌊q + 1/2⌋ : ℤ) : ℚ) := Int.sub_one_lt_floor _
  rw [abs_le]
  constructor <;> linarith

/-- Sum of per-element rounding errors. -/
theorem abs_sum_jsRound_sub (xs : List ℚ) :
    |(xs.map (fun x => ((jsRound x : ℤ) : ℚ))).sum - xs.sum| ≤ (xs.length : ℚ) / 2 := by
  induction xs with
  | nil => simp
  | cons x xs ih =>
    simp only [List.map_cons, List.sum_cons, List.length_cons]
    have h1 := jsRound_sub_abs_le x
    have step : ((jsRound x : ℤ) : ℚ) + (xs.map (fun x => ((jsRound x : ℤ) : ℚ))).sum
        - (x + xs.sum)
        = (((jsRound x : ℤ) : ℚ) - x) +
          ((xs.map (fun x => ((jsRound x : ℤ) : ℚ))).sum - xs.sum) := by ring
    rw [step]
    calc |(((jsRound x : ℤ) : ℚ) - x) +
          ((xs.map (fun x => ((jsRound x : ℤ) : ℚ))).sum - xs.sum)|
        ≤ |((jsRound x : ℤ) : ℚ) - x| +
          |(xs.map (fun x => ((jsRound x : ℤ) : ℚ))).sum - xs.sum| := abs_add _ _
      _ ≤ 1/2 + (xs.length : ℚ) / 2 := add_le_add h1 ih
      _ = ((xs.length : ℚ) + 1) / 2 := by ring
      _ = (((xs.length + 1 : ℕ) : ℚ)) / 2 := by push_cast; ring

/-- Casting the integer sum of rounded values to the rationals. -/
theorem cast_sum_map_jsRound (ys : List ℚ) :
    (((ys.map (fun x => jsRound x)).sum : ℤ) : ℚ)
      = (ys.map (fun x => ((jsRound x : ℤ) : ℚ))).sum := by
  induction ys with
  | nil => simp
  | cons y ys ih =>
    simp only [List.map_cons, List.sum_cons]
    push_cast [ih]
    ring

/-- The ranked list is a permutation of the processed data. -/
theorem rankedByImpact_perm (rawData : List ServiceRecord) :
    List.Perm (rankedByImpact rawData) (processedData rawData) := by
  unfold rankedByImpact rankedPairs
  have hperm := List.perm_insertionSort (fun a b => rankLE a b = true)
    ((processedData rawData).enum)
  have := hperm.map Prod.snd
  simpa using this

/-- With at most eight records the `topDrivers` slice is the whole ranked
list. -/
theorem topDriversRanked_eq_ranked (rawData : List ServiceRecord)
    (hlen : rawData.length ≤ 8) :
    topDriversRanked rawData = rankedByImpact rawData := by
  unfold topDriversRanked
  have hlen2 : (rankedByImpact rawData).length = rawData.length := by
    have := (rankedByImpact_perm rawData).length_eq
    simpa [processedData] using this
  apply List.take_of_length_le
  omega

/-- With at most eight records nothing is left over for
`otherItemsSummary`: the unrounded combined impact is zero. -/
theorem otherMonthlyImpact_eq_zero (rawData : List ServiceRecord)
    (hlen : rawData.length ≤ 8) :
    otherMonthlyImpact rawData = 0 := by
  unfold otherMonthlyImpact
  rw [topDriversRanked_eq_ranked rawData hlen]
  have hperm : List.Perm ((rankedByImpact rawData).map (·.monthlyRevenueImpact))
      ((processedData rawData).map (·.monthlyRevenueImpact)) :=
    (rankedByImpact_perm rawData).map _
  rw [hperm.sum_eq]
  unfold totalMonthlyDelta processedData
  rw [List.map_map]
  have : ((fun p : ProcessedService => p.monthlyRevenueImpact) ∘ processService) =
      (fun s : ServiceRecord => s.additionalValue / 12) := rfl
  rw [this]
  ring

/-- Filtering a mapped driver list by the `included` flag and summing the
rounded impacts, generically in the flag and builder. -/
theorem filter_map_mk_sum (l : List ProcessedService)
    (flag : ProcessedService → Bool) (mk : ProcessedService → TopDriver)
    (hmk : ∀ d, (mk d).included = flag d)
    (hval : ∀ d, (mk d).monthlyRevenueImpact = jsRound d.monthlyRevenueImpact) :
    (((l.map mk).filter (fun d => d.included)).map
        (fun d => d.monthlyRevenueImpact)).sum
      = ((l.filter flag).map (fun d => jsRound d.monthlyRevenueImpact)).sum := by
  induction l with
  | nil => simp
  | cons d ds ih =>
    simp only [List.map_cons, List.filter_cons, hmk]
    by_cases hd : flag d
    · simp [hd, ih, hval]
    · simp [hd, ih]

/-- The payload's included-driver rounded sum as a rounding of the raw
filtered impacts. -/
theorem topDrivers_filtered_sum (rawData : List ServiceRecord) :
    (((topDriversOf rawData).filter (fun d => d.included)).map
        (fun d => d.monthlyRevenueImpact)).sum =
      (((topDriversRanked rawData).filter (includedFlag rawData)).map
        (fun d => jsRound d.monthlyRevenueImpact)).sum := by
  unfold topDriversOf
  exact filter_map_mk_sum (topDriversRanked rawData) (includedFlag rawData)
    (mkTopDriver rawData) (fun d => rfl) (fun d => rfl)

/-- C1 amended: for every non-empty input of at most 8 records, the sum
of the included drivers' `monthlyRevenueImpact` plus
`otherItemsSummary.combinedMonthlyImpact` equals
`summaryMetrics.monthlyRevenueDelta` within `max(0.1% of the total, 10)`
(the discrepancy is pure rounding, at most 4.5).  For more than 8
records the identity fails by the combined impact of the records outside
the top 8, as the counterexample shows. -/
theorem c1_amended_invariant_upto_8_records
    (prefs : UserPreferences) (rawData : List ServiceRecord) (p : Payload)
    (hne : rawData ≠ []) (hlen : rawData.length ≤ 8)
    (hp : generatePayload prefs rawData = some p) :
    |(((((p.topDrivers.filter (fun d => d.included)).map
          (fun d => d.monthlyRevenueImpact)).sum
        + p.otherItemsSummary.combinedMonthlyImpact
        - p.summaryMetrics.monthlyRevenueDelta : ℤ)) : ℚ)|
      ≤ max (|(p.summaryMetrics.monthlyRevenueDelta : ℚ)| * (1/1000)) 10 := by
  have hne' : ¬ rawData.isEmpty := by
    simpa [List.isEmpty_iff] using hne
  rw [generatePayload, if_neg hne'] at hp
  injection hp with hinj
  subst hinj
  show |((((((topDriversOf rawData).filter (fun d => d.included)).map
      (fun d => d.monthlyRevenueImpact)).sum
      + jsRound (otherMonthlyImpact rawData)
      - (summaryMetricsOf prefs rawData).monthlyRevenueDelta : ℤ)) : ℚ)|
    ≤ max (|((summaryMetricsOf prefs rawData).monthlyRevenueDelta : ℚ)| * (1/1000)) 10
  have hdelta : (summaryMetricsOf prefs rawData).monthlyRevenueDelta
      = jsRound (includedMonthlyDelta rawData) := rfl
  rw [topDrivers_filtered_sum rawData, otherMonthlyImpact_eq_zero rawData hlen,
    show (jsRound 0 : ℤ) = 0 by decide, hdelta]
  have hmm : (((topDriversRanked rawData).filter (includedFlag rawData)).map
      (fun d => jsRound d.monthlyRevenueImpact)).sum
      = (((((topDriversRanked rawData).filter (includedFlag rawData)).map
          (fun d => d.monthlyRevenueImpact)).map (fun x => jsRound x)).sum) := by
    rw [List.map_map]
    rfl
  rw [hmm]
  set xs := ((topDriversRanked rawData).filter (includedFlag rawData)).map
    (fun d => d.monthlyRevenueImpact) with hxs
  have hincl : includedMonthlyDelta rawData = xs.sum := rfl
  rw [hincl]
  have hxslen : xs.length ≤ 8 := by
    have h1 : xs.length ≤ (topDriversRanked rawData).length := by
      rw [hxs]
      simpa using List.length_filter_le _ _
    have h2 : (topDriversRanked rawData).length ≤ 8 := by
      unfold topDriversRanked
      simp only [List.length_take]
      omega
    omega
  have hbound : |((((xs.map (fun x => jsRound x)).sum + 0
      - jsRound xs.sum : ℤ)) : ℚ)| ≤ 10 := by
    have hcast : ((((xs.map (fun x => jsRound x)).sum + 0 - jsRound xs.sum : ℤ)) : ℚ)
        = ((xs.map (fun x => ((jsRound x : ℤ) : ℚ))).sum - xs.sum)
          + (xs.sum - ((jsRound xs.sum : ℤ) : ℚ)) := by
      push_cast
      rw [List.map_map]
      simp only [Function.comp_def]
      ring
    rw [hcast]
    have h1 := abs_sum_jsRound_sub xs
    have h2' : |xs.sum - ((jsRound xs.sum : ℤ) : ℚ)| ≤ 1/2 := by
      rw [abs_sub_comm]
      exact jsRound_sub_abs_le xs.sum
    calc |((xs.map (fun x => ((jsRound x : ℤ) : ℚ))).sum - xs.sum)
          + (xs.sum - ((jsRound xs.sum : ℤ) : ℚ))|
        ≤ |(xs.map (fun x => ((jsRound x : ℤ) : ℚ))).sum - xs.sum|
          + |xs.sum - ((jsRound xs.sum : ℤ) : ℚ)| := abs_add _ _
      _ ≤ (xs.length : ℚ) / 2 + 1/2 := add_le_add h1 h2'
      _ ≤ 8 / 2 + 1/2 := by
          have : (xs.length : ℚ) ≤ 8 := by exact_mod_cast hxslen
          linarith
      _ ≤ 10 := by norm_num
  calc |((((xs.map (fun x => jsRound x)).sum + 0 - jsRound xs.sum : ℤ)) : ℚ)|
      ≤ 10 := hbound
    _ ≤ max (|((jsRound xs.sum : ℤ) : ℚ)| * (1/1000)) 10 := le_max_right _ _

/-- C1 witness: the amended invariant applied to the two-record scenario
input. -/
theorem c1_witness_invariant_at_concrete_input :
    (generatePayload prefsScenario recsScenario).map (fun p =>
      decide (|(((((p.topDrivers.filter (fun d => d.included)).map
            (fun d => d.monthlyRevenueImpact)).sum
          + p.otherItemsSummary.combinedMonthlyImpact
          - p.summaryMetrics.monthlyRevenueDelta : ℤ)) : ℚ)|
        ≤ max (|(p.summaryMetrics.monthlyRevenueDelta : ℚ)| * (1/1000)) 10))
      = some true := by
  obtain ⟨p, hp⟩ : ∃ p, generatePayload prefsScenario recsScenario = some p :=
    ⟨_, rfl⟩
  have h := c1_amended_invariant_upto_8_records prefsScenario recsScenario p
    (by decide) (by decide) hp
  rw [hp]
  show some (decide _) = some true
  exact congrArg some (decide_eq_true h)

/-! ## C5 -/

/-- The ranking order restricted to the data it actually reads: original
position and monthly impact. -/
def rankKeyLE (a b : ℕ × ℚ) : Bool :=
  decide (b.2 < a.2) || (decide (a.2 = b.2) && decide (a.1 ≤ b.1))

/-- The per-record monthly impacts, in input order. -/
def impacts (l : List ServiceRecord) : List ℚ :=
  l.map (fun s => s.additionalValue / 12)

/-- The permutation of input positions produced by the ranking, as a
function of the impact sequence alone. -/
def rankOrder (qs : List ℚ) : List ℕ :=
  (List.insertionSort (fun a b => rankKeyLE a b = true) qs.enum).map (fun x => x.1)

/-- The ranked pairs, projected to (position, impact), coincide with the
sort of the impact sequence: the comparator reads nothing else. -/
theorem rankedPairs_map_key (l : List ServiceRecord) :
    (rankedPairs l).map (fun x => (x.1, x.2.monthlyRevenueImpact)) =
      List.insertionSort (fun a b => rankKeyLE a b = true) ((impacts l).enum) := by
  unfold rankedPairs
  rw [List.map_insertionSort (fun a b => rankLE a b = true)
    (fun a b : ℕ × ℚ => rankKeyLE a b = true)
    (fun x => (x.1, x.2.monthlyRevenueImpact)) ((processedData l).enum)
    (fun a _ b _ => Iff.rfl)]
  congr 1
  show ((processedData l).enum).map
      (fun x => (x.1, x.2.monthlyRevenueImpact)) = (impacts l).enum
  rw [show processedData l = l.map processService from rfl, List.enum_map,
    List.map_map, show impacts l = l.map (fun s => s.additionalValue / 12) from rfl,
    List.enum_map]
  rfl

/-- The position sequence of the ranked pairs is `rankOrder` of the
impacts. -/
theorem rankedPairs_map_fst (l : List ServiceRecord) :
    (rankedPairs l).map (fun x => x.1) = rankOrder (impacts l) := by
  show (rankedPairs l).map (fun x => x.1) =
    (List.insertionSort (fun a b => rankKeyLE a b = true) ((impacts l).enum)).map
      (fun x => x.1)
  rw [← rankedPairs_map_key, List.map_map]
  rfl

/-- Every ranked pair is an enumerated processed record. -/
theorem mem_rankedPairs_eq (l : List ServiceRecord) (x : ℕ × ProcessedService)
    (hx : x ∈ rankedPairs l) :
    ∃ h : x.1 < l.length, x.2 = processService (l.get ⟨x.1, h⟩) := by
  have hperm : List.Perm (rankedPairs l) ((processedData l).enum) :=
    List.perm_insertionSort _ _
  have hxe : x ∈ (processedData l).enum := hperm.mem_iff.mp hx
  have hx2 : (x.1, x.2) ∈ (processedData l).enum := by
    simpa using hxe
  have hsome : (processedData l)[x.1]? = some x.2 :=
    (List.mk_mem_enum_iff_getElem?).mp hx2
  obtain ⟨hlt, hval⟩ := List.getElem?_eq_some_iff.mp hsome
  have hlen : x.1 < l.length := by
    simpa [processedData] using hlt
  refine ⟨hlen, ?_⟩
  rw [← hval]
  simp [processedData, List.get_eq_getElem]

/-- With pairwise-distinct ids, a record is flagged `included` exactly
when its input position is among the first six of the rank order. -/
theorem includedFlag_get_iff (l : List ServiceRecord)
    (hnd : (l.map (fun r => r.id)).Nodup) (j : ℕ) (hj : j < l.length) :
    ((top6Ids l).contains ((l.get ⟨j, hj⟩).id) = true) ↔
      j ∈ (rankOrder (impacts l)).take 6 := by
  have hT : top6Ids l = ((rankedPairs l).take 6).map (fun x => x.2.id) := by
    unfold top6Ids rankedByImpact
    rw [← List.map_take, List.map_map]
    rfl
  have hO : (rankOrder (impacts l)).take 6 =
      ((rankedPairs l).take 6).map (fun x => x.1) := by
    rw [← rankedPairs_map_fst, List.map_take]
  have hinj : ∀ (a b : ℕ) (ha : a < l.length) (hb : b < l.length),
      (l.get ⟨a, ha⟩).id = (l.get ⟨b, hb⟩).id → a = b := by
    intro a b ha hb hid
    have ha2 : a < (l.map (fun r => r.id)).length := by
      rw [List.length_map]; exact ha
    have hb2 : b < (l.map (fun r => r.id)).length := by
      rw [List.length_map]; exact hb
    have hma : (l.map (fun r => r.id)).get ⟨a, ha2⟩ = (l.get ⟨a, ha⟩).id := by
      simp [List.get_eq_getElem]
    have hmb : (l.map (fun r => r.id)).get ⟨b, hb2⟩ = (l.get ⟨b, hb⟩).id := by
      simp [List.get_eq_getElem]
    have hfin := (@List.Nodup.get_inj_iff _ _ hnd ⟨a, ha2⟩ ⟨b, hb2⟩).mp
      (by rw [hma, hmb]; exact hid)
    exact congrArg Fin.val hfin
  constructor
  · intro hc
    have hmem : (l.get ⟨j, hj⟩).id ∈ top6Ids l := by
      simpa using hc
    rw [hT] at hmem
    obtain ⟨x, hxT, hxid⟩ := List.mem_map.mp hmem
    obtain ⟨hlt, hval⟩ := mem_rankedPairs_eq l x (List.mem_of_mem_take hxT)
    have hidx : x.1 = j := by
      apply hinj x.1 j hlt hj
      rw [← hxid, hval]
      rfl
    rw [hO]
    exact List.mem_map.mpr ⟨x, hxT, hidx⟩
  · intro hj6
    rw [hO] at hj6
    obtain ⟨x, hxT, hx1⟩ := List.mem_map.mp hj6
    obtain ⟨hlt, hval⟩ := mem_rankedPairs_eq l x (List.mem_of_mem_take hxT)
    have hid : x.2.id = (l.get ⟨j, hj⟩).id := by
      rw [hval]
      have : (⟨x.1, hlt⟩ : Fin l.length) = ⟨j, hj⟩ := by
        apply Fin.ext
        exact hx1
      rw [this]
      rfl
    have hmem : (l.get ⟨j, hj⟩).id ∈ top6Ids l := by
      rw [hT]
      exact List.mem_map.mpr ⟨x, hxT, hid⟩
    simpa using hmem

/-- With pairwise-distinct ids, the `included` flags are a pure function
of the impact sequence: position `j` is flagged exactly when it occurs in
the first six entries of the rank order of the impacts. -/
theorem includedFlags_eq_rankOrder (l : List ServiceRecord)
    (hnd : (l.map (fun r => r.id)).Nodup) :
    includedFlags l = (List.range l.length).map
      (fun j => decide (j ∈ (rankOrder (impacts l)).take 6)) := by
  apply List.ext_getElem
  · simp [includedFlags, processedData]
  · intro i h1 h2
    have hi : i < l.length := by
      simpa [includedFlags, processedData] using h1
    have hiff := includedFlag_get_iff l hnd i hi
    simp only [includedFlags, processedData, List.getElem_map, List.getElem_range]
    show includedFlag l (processService (l[i])) = decide (i ∈ (rankOrder (impacts l)).take 6)
    unfold includedFlag
    have hid : (processService (l[i])).id = (l.get ⟨i, hi⟩).id := by
      simp [processService, List.get_eq_getElem]
    rw [show (processService (l[i])).id = (l.get ⟨i, hi⟩).id from hid]
    by_cases hP : i ∈ (rankOrder (impacts l)).take 6
    · rw [decide_eq_true hP]
      exact hiff.mpr hP
    · rw [decide_eq_false hP]
      exact Bool.eq_false_iff.mpr (fun hb => hP (hiff.mp hb))

/-- C5 amended: for two inputs with the same monetary data in the same
order and pairwise-distinct ids within each list, `generatePayload` marks
exactly the same positions as included, whatever the ids and names are. -/
theorem c5_amended_rank_pure_selection (l₁ l₂ : List ServiceRecord)
    (himp : l₁.map (fun r => r.additionalValue) = l₂.map (fun r => r.additionalValue))
    (hnd₁ : (l₁.map (fun r => r.id)).Nodup)
    (hnd₂ : (l₂.map (fun r => r.id)).Nodup) :
    includedFlags l₁ = includedFlags l₂ := by
  have hlen : l₁.length = l₂.length := by
    have := congrArg List.length himp
    simpa using this
  have himpacts : impacts l₁ = impacts l₂ := by
    unfold impacts
    have h1 : l₁.map (fun s => s.additionalValue / 12) =
        (l₁.map (fun r => r.additionalValue)).map (fun q => q / 12) := by
      rw [List.map_map]
      simp only [Function.comp_def]
    have h2 : l₂.map (fun s => s.additionalValue / 12) =
        (l₂.map (fun r => r.additionalValue)).map (fun q => q / 12) := by
      rw [List.map_map]
      simp only [Function.comp_def]
    rw [h1, h2, himp]
  rw [includedFlags_eq_rankOrder l₁ hnd₁, includedFlags_eq_rankOrder l₂ hnd₂,
    himpacts, hlen]

/-- Seven records with descending monthly impacts 700..100 and distinct
ids. -/
def recsSevenA : List ServiceRecord :=
  (List.range 7).map (fun i =>
    { id := "r" ++ toString (i + 1), name := "Service " ++ toString (i + 1),
      currentValue := 100, potentialValue := 100,
      additionalValue := (8400 : ℚ) - 1200 * i, growthPercentage := 50 })

/-- The same monetary data, but the seventh record reuses the id of the
first. -/
def recsSevenB : List ServiceRecord :=
  (List.range 7).map (fun i =>
    { id := if i = 6 then "r1" else "r" ++ toString (i + 1),
      name := "Service " ++ toString (i + 1),
      currentValue := 100, potentialValue := 100,
      additionalValue := (8400 : ℚ) - 1200 * i, growthPercentage := 50 })

/-- The same monetary data with entirely different ids and names. -/
def recsSevenC : List ServiceRecord :=
  (List.range 7).map (fun i =>
    { id := "svc-" ++ toString (i + 11), name := "Other name " ++ toString (i + 1),
      currentValue := 100, potentialValue := 100,
      additionalValue := (8400 : ℚ) - 1200 * i, growthPercentage := 50 })

/-- C5 counterexample: two inputs differing only in id/name identity
(same monetary fields in the same order) for which `generatePayload`
marks different positions as included — inclusion tests membership of the
record's id in the top-6 id list, so a duplicated id drags the
lowest-ranked record into the included set. -/
theorem c5_counterexample_duplicate_id :
    recsSevenA.map (fun r =>
        (r.currentValue, r.potentialValue, r.additionalValue, r.growthPercentage))
      = recsSevenB.map (fun r =>
        (r.currentValue, r.potentialValue, r.additionalValue, r.growthPercentage)) ∧
      includedFlags recsSevenA ≠ includedFlags recsSevenB := by
  decide

/-- C5 witness: the amended theorem applied to two concrete lists with
the same monetary data and disjoint id/name sets. -/
theorem c5_witness_same_flags_for_renamed_services :
    includedFlags recsSevenA = includedFlags recsSevenC :=
  c5_amended_rank_pure_selection recsSevenA recsSevenC
    (by decide) (by decide) (by decide)

end PharmacyCalc
